import Mathlib

/-!
Waves of Change backend: auth gate, account lifecycle and signups

A shallow embedding of the Express/Mongoose handlers of the repository
(`middleware/auth.js`, `routes/users.js`, `routes/profile.js`,
`routes/donations.js`, `routes/opportunities.js`, `routes/userOpportunities.js`
and the schemas under `models/`).

Conventions of the embedding

* A JSON request field is a `JsVal`: `undefined` (field absent), `null`, a
  boolean, an integer number or a string.  Object and array values are not
  modelled, nor are numbers with a fractional part; an integer is rendered in
  decimal digits, as JavaScript does below 10^21 in absolute value.
* A handler is a pure function from the database state (and the inputs the
  handler reads from its environment: clock, generated id, salt) to a
  response and the next database state.  The database is assumed to be
  connected; driver and network failures are not modelled.
* Library routines whose result is not determined by the repository
  (Unicode lower-casing, bcrypt, date parsing, the JWS wire format) are fields
  of `Runtime`; theorems quantify over every runtime.
* A Mongo `ObjectId` is an abstract natural number; its hexadecimal rendering
  is injective, so comparing renderings is comparing ids.
* The validation chains of express-validator read their field from the
  request body; a query parameter, cookie or header of the same name is not
  modelled.
-/

namespace WavesOfChange

/-! ## JavaScript values -/

/-- The JSON values a request field can hold. -/
inductive JsVal where
  | undefined
  | null
  | bool (b : Bool)
  | num (n : Int)
  | str (s : String)
  deriving DecidableEq, Repr

/-- JavaScript truthiness (`if (v)`, `!v`, `v || d`). -/
def JsVal.truthy : JsVal → Bool
  | .undefined => false
  | .null => false
  | .bool b => b
  | .num n => n != 0
  | .str s => s != ""

/-- JavaScript `v || d`. -/
def JsVal.orElse (v d : JsVal) : JsVal :=
  if v.truthy then v else d

/-- Number of UTF-16 code units of a string: JavaScript `s.length`. -/
def jsLength (s : String) : Nat :=
  (s.data.map fun c => if c.val.toNat < 65536 then 1 else 2).sum

/-- White space and line terminators removed by `String.prototype.trim`. -/
def jsIsSpace (c : Char) : Bool :=
  let n := c.val.toNat
  n == 9 || n == 10 || n == 11 || n == 12 || n == 13 || n == 32 || n == 160 ||
  n == 5760 || (8192 ≤ n && n ≤ 8202) || n == 8232 || n == 8233 || n == 8239 ||
  n == 8287 || n == 12288 || n == 65279

/-- JavaScript `s.trim()`. -/
def jsTrim (s : String) : String :=
  String.mk ((s.data.dropWhile jsIsSpace).reverse.dropWhile jsIsSpace).reverse

/-- A Mongo document identifier. -/
abbrev ObjectId := Nat

/-! ## HTTP responses -/

/-- The projection of a user document returned by the profile routes
(`select: '-password'`). -/
structure UserView where
  _id : ObjectId
  firstName : String
  lastName : String
  email : String
  phone : String
  dateOfBirth : Option Int
  gender : String
  country : String
  city : String
  deriving DecidableEq, Repr

/-- A signup document of the `userOpportunities` collection. -/
structure UserOpportunity where
  _id : ObjectId
  user : ObjectId
  opportunity : ObjectId
  signedUpAt : Nat
  deriving DecidableEq, Repr

/-- A document of the `donations` collection (`models/Donations.js`); a path
that holds `null` is `none`. -/
structure Donation where
  _id : ObjectId
  user : Option ObjectId
  amount : Int
  currency : String
  paymentIntentId : Option String
  status : Option String
  donatedAt : Nat
  deriving DecidableEq, Repr

/-- Modelled from the spec: `models/opportunity.model.js` is not part of the
sources; an opportunity has a title, description, location, duration, number
of volunteers needed and a creation timestamp. -/
structure Opportunity where
  _id : ObjectId
  title : String
  description : String
  location : String
  duration : String
  volunteersNeeded : Nat
  dateCreated : Nat
  deriving DecidableEq, Repr

/-- One entry of express-validator's `errors.array()`. -/
structure FieldError where
  value : JsVal
  msg : String
  param : String
  location : String
  deriving DecidableEq, Repr

/-- A user document as `populate('user', fields)` embeds it: the selected
paths and the virtual `fullName`. -/
structure PopulatedUser where
  _id : ObjectId
  firstName : Option String
  lastName : Option String
  email : Option String
  fullName : Option String
  deriving DecidableEq, Repr

/-- An opportunity as `populate('opportunity', [...])` embeds it. -/
structure OpportunityView where
  _id : ObjectId
  title : String
  description : String
  location : String
  duration : String
  volunteersNeeded : Nat
  deriving DecidableEq, Repr

/-- The bodies the handlers send. -/
inductive Body where
  | msg (m : String)
  | error (e : String)
  | errorDetails (e : String) (details : List (String × String))
  | text (s : String)
  | registered (id : ObjectId) (firstName lastName email message : String)
  | loggedIn (token : String) (id : ObjectId) (firstName email message : String)
  | profile (message : String) (user : UserView)
  | signedUp (m : String) (userOpportunity : UserOpportunity)
  | errors (errors : List FieldError)
  | user (user : UserView) (fullName : Option String)
  | donation (donation : Donation)
  | donationWithUser (donation : Donation) (user : Option PopulatedUser)
  | donations (list : List (Donation × Option PopulatedUser))
  | opportunities (list : List Opportunity)
  | signups (list : List (UserOpportunity × Option OpportunityView))
  deriving DecidableEq, Repr

/-- An HTTP response: `res.status(status).json(body)`; `res.json` alone sends
status 200. -/
structure Response where
  status : Nat
  body : Body
  deriving DecidableEq, Repr

/-! ## Tokens (jsonwebtoken) -/

/-- The claims of a token.  Login signs `{ id: user._id }` and the library
adds `iat` and, for `expiresIn`, `exp`; both are in seconds. -/
structure JwtClaims where
  id : ObjectId
  iat : Nat
  nbf : Option Nat
  exp : Option Nat
  deriving DecidableEq, Repr

/-- Library routines left abstract. -/
structure Runtime where
  /-- JavaScript `s.toLowerCase()`. -/
  toLowerCase : String → String
  /-- The function `bcrypt.hash(password, salt)`. -/
  bcryptHash : String → String → String
  /-- The function `bcrypt.compare(password, hash)`. -/
  bcryptCompare : String → String → Bool
  /-- JavaScript `new Date(v)` in milliseconds; `none` is an invalid date. -/
  newDate : JsVal → Option Int
  /-- Mongoose cast of an update value to a date. -/
  castDate : JsVal → Option Int
  /-- JWS serialisation of claims signed with a key. -/
  jwsEncode : JwtClaims → String → String
  /-- JWS parsing and signature check with a key. -/
  jwsDecode : String → String → Option JwtClaims
  /-- Mongoose cast of a value to an `ObjectId`; `none` is a `CastError`. -/
  castObjectId : JsVal → Option ObjectId
  /-- JavaScript `Number(s)` of a string, within the integers of the embedding;
  `none` is `NaN`. -/
  toNumber : String → Option Int

/-- The function `jwt.sign({ id }, secret, { expiresIn: '1h' })` at clock `now`
(milliseconds): `iat` is the clock in whole seconds, `exp` is `iat + 3600`. -/
def jwtSign (rt : Runtime) (id : ObjectId) (secret : String) (now : Nat) : String :=
  let iat := now / 1000
  rt.jwsEncode { id := id, iat := iat, nbf := none, exp := some (iat + 3600) } secret

/-- The function `jwt.verify(token, secret)` at clock `now` (milliseconds): the
signature must check, `nbf` must not lie in the future and the token is
expired as soon as the clock in whole seconds reaches `exp`. -/
def jwtVerify (rt : Runtime) (secret : Option String) (now : Nat) (token : String) :
    Except String JwtClaims :=
  match secret with
  | none => .error "secret or public key must be provided"
  | some key =>
    match rt.jwsDecode token key with
    | none => .error "invalid token"
    | some claims =>
      let clockTimestamp := now / 1000
      if claims.nbf.any (fun nbf => nbf > clockTimestamp) then .error "jwt not active"
      else if claims.exp.any (fun exp => clockTimestamp ≥ exp) then .error "jwt expired"
      else .ok claims

/-! ## middleware/auth.js -/

/-- The value `req.user` set by the gate. -/
structure ReqUser where
  id : ObjectId
  deriving DecidableEq, Repr

/-- What the gate did with a request: the value of `req.user` afterwards, the
response it sent (if any) and whether it called `next()`. -/
structure GateEffect where
  reqUser : Option ReqUser
  response : Option Response
  nextCalled : Bool
  deriving DecidableEq, Repr

/-- The middleware `auth.js`.  `header` is `req.header('x-auth-token')`, `verify`
is `jwt.verify(·, process.env.JWT_SECRET)`, which returns the decoded claims or
throws. -/
def auth (verify : String → Except String JwtClaims) (header : Option String) : GateEffect :=
  let token := header
  -- if (!token)
  if !(token.any fun t => t != "") then
    { reqUser := none
      response := some ⟨401, .msg "No token, authorization denied"⟩
      nextCalled := false }
  else
    match verify (token.getD "") with
    | .ok decoded =>
      { reqUser := some { id := decoded.id }, response := none, nextCalled := true }
    | .error _ =>
      { reqUser := none
        response := some ⟨401, .msg "Token is not valid"⟩
        nextCalled := false }

/-! ## Regular expressions (the `match` validator of the email path) -/

/-- Regular expressions over characters. -/
inductive Rx where
  | none
  | eps
  | cls (p : Char → Bool)
  | seq (a b : Rx)
  | alt (a b : Rx)
  | star (a : Rx)

/-- Whether the expression matches the empty string. -/
def Rx.nullable : Rx → Bool
  | .none => false
  | .eps => true
  | .cls _ => false
  | .seq a b => a.nullable && b.nullable
  | .alt a b => a.nullable || b.nullable
  | .star _ => true

/-- Brzozowski derivative by one character. -/
def Rx.deriv (c : Char) : Rx → Rx
  | .none => .none
  | .eps => .none
  | .cls p => if p c then .eps else .none
  | .seq a b =>
    if a.nullable then .alt (.seq (a.deriv c) b) (b.deriv c) else .seq (a.deriv c) b
  | .alt a b => .alt (a.deriv c) (b.deriv c)
  | .star a => .seq (a.deriv c) (.star a)

/-- Anchored match `^r$` of a list of characters. -/
def Rx.matchChars (r : Rx) : List Char → Bool
  | [] => r.nullable
  | c :: cs => (r.deriv c).matchChars cs

/-- The expression `r+`. -/
def Rx.plus (r : Rx) : Rx := .seq r (.star r)

/-- The expression `r?`. -/
def Rx.opt (r : Rx) : Rx := .alt .eps r

/-- The class `\w`: ASCII letters, digits and underscore. -/
def isWordChar (c : Char) : Bool :=
  let n := c.val.toNat
  (48 ≤ n && n ≤ 57) || (65 ≤ n && n ≤ 90) || (97 ≤ n && n ≤ 122) || n == 95

/-- The expression `\w+([\.-]?\w+)*`. -/
def rxNames : Rx :=
  .seq (Rx.plus (.cls isWordChar))
    (.star (.seq (Rx.opt (.cls fun c => c == '.' || c == '-')) (Rx.plus (.cls isWordChar))))

/-- The expression `\.\w{2,3}`. -/
def rxSuffix : Rx :=
  .seq (.cls fun c => c == '.')
    (.seq (.cls isWordChar) (.seq (.cls isWordChar) (Rx.opt (.cls isWordChar))))

/-- The pattern of `userSchema.email.match`:
`/^\w+([\.-]?\w+)*@\w+([\.-]?\w+)*(\.\w{2,3})+$/`. -/
def emailPattern : Rx :=
  .seq rxNames (.seq (.cls fun c => c == '@') (.seq rxNames (Rx.plus rxSuffix)))

/-- The test `emailPattern.test(s)`. -/
def emailMatches (s : String) : Bool :=
  emailPattern.matchChars s.data

/-! ## Collections -/

/-- A document of the `users` collection (`models/user.model.js`, with the
`createdAt` and `updatedAt` paths of `timestamps: true`). -/
structure User where
  _id : ObjectId
  firstName : String
  lastName : String
  email : String
  password : String
  phone : String
  dateOfBirth : Option Int
  gender : String
  country : String
  city : String
  createdAt : Nat
  updatedAt : Nat
  deriving DecidableEq, Repr

/-- The database: one list of documents per collection. -/
structure Db where
  users : List User
  donations : List Donation
  opportunities : List Opportunity
  userOpportunities : List UserOpportunity
  deriving DecidableEq, Repr

/-- The database with no documents. -/
def Db.empty : Db :=
  { users := [], donations := [], opportunities := [], userOpportunities := [] }

/-- The projection `select('-password')` of a user document. -/
def User.view (u : User) : UserView :=
  { _id := u._id, firstName := u.firstName, lastName := u.lastName, email := u.email,
    phone := u.phone, dateOfBirth := u.dateOfBirth, gender := u.gender,
    country := u.country, city := u.city }

/-! ## Mongoose: casting, setters and validators of the user schema -/

/-- Mongoose cast of a value to a `String` path; `undefined` and `null` are not
cast (`none`).  A number is rendered in decimal digits, which is `String(n)`
for an integer below 10^21 in absolute value. -/
def castString : JsVal → Option String
  | .undefined => none
  | .null => none
  | .bool b => some (if b then "true" else "false")
  | .num n => some (toString n)
  | .str s => some s

/-- The setters of the email path, `trim: true, lowercase: true`; Mongoose runs
setters last-declared first. -/
def normalizeEmail (rt : Runtime) (s : String) : String :=
  jsTrim (rt.toLowerCase s)

/-- The query `User.findOne({ email: email })`: the filter value is cast and
passed through the setters of the path, then compared with the stored
emails. -/
def findOneByEmail (rt : Runtime) (users : List User) (email : JsVal) : Option User :=
  match castString email with
  | none => none
  | some s => users.find? fun u => u.email == normalizeEmail rt s

/-- The query `User.findById(id)`. -/
def findById (users : List User) (id : ObjectId) : Option User :=
  users.find? fun u => u._id == id

/-- The values of `userSchema.gender.enum`. -/
def genderValues : List String :=
  ["Male", "Female", "Non-binary", "Prefer not to say", ""]

/-- Validators of a required, trimmed name path: the first failure, if any. -/
def validateRequired (message : String) (v : String) : Option String :=
  if v == "" then some message else none

/-- Validators of the email path: `required`, then `match`. -/
def validateEmail (v : String) : Option String :=
  if v == "" then some "Email is required"
  else if !emailMatches v then some "Please fill a valid email address"
  else none

/-- Validators of the password path: `required`, then `minlength: 6`. -/
def validatePassword (v : String) : Option String :=
  if v == "" then some "Password is required"
  else if jsLength v < 6 then some "Password must be at least 6 characters long"
  else none

/-- The custom validator of the phone path. -/
def validatePhone (v : String) : Option String :=
  if v == "" || jsLength v ≥ 10 then none
  else some (v ++ " is not a valid phone number, it must be at least 10 digits long!")

/-- The `enum` validator of the gender path. -/
def validateGender (v : String) : Option String :=
  if genderValues.contains v then none else some (v ++ " is not a valid gender")

/-- The entries of `err.errors`: the failing paths with their messages. -/
def collectErrors (checks : List (String × Option String)) : List (String × String) :=
  checks.filterMap fun (path, r) => r.map fun m => (path, m)

/-- The text of `err.message` of a `ValidationError`. -/
def validationMessage (title : String) (errors : List (String × String)) : String :=
  title ++ ": " ++ ", ".intercalate (errors.map fun (path, m) => path ++ ": " ++ m)

/-! ## routes/users.js -/

/-- The fields `POST /register` reads from `req.body`. -/
structure RegisterBody where
  firstName : JsVal
  lastName : JsVal
  email : JsVal
  password : JsVal
  phone : JsVal
  dateOfBirth : JsVal
  gender : JsVal
  country : JsVal
  city : JsVal
  deriving DecidableEq, Repr

/-- The unique indexes of the `users` collection (`_id`, and `email` by
`unique: true`): whether inserting a document with this id and email raises
the duplicate-key error `E11000`. -/
def userInsertConflict (users : List User) (id : ObjectId) (email : String) : Bool :=
  users.any fun u => u._id == id || u.email == email

/-- The document `new User({ ... })` of the register handler, after casting
and the setters of each path; `passwordHash` is the bcrypt hash. -/
def newUser (rt : Runtime) (now : Nat) (newId : ObjectId) (passwordHash : String)
    (body : RegisterBody) : User :=
  { _id := newId
    firstName := jsTrim ((castString body.firstName).getD "")
    lastName := jsTrim ((castString body.lastName).getD "")
    email := normalizeEmail rt ((castString body.email).getD "")
    password := passwordHash
    -- phone: phone || ''
    phone := jsTrim ((castString (body.phone.orElse (.str ""))).getD "")
    -- dateOfBirth: dateOfBirth ? new Date(dateOfBirth) : undefined
    dateOfBirth := if body.dateOfBirth.truthy then rt.newDate body.dateOfBirth else none
    gender := (castString (body.gender.orElse (.str ""))).getD ""
    country := jsTrim ((castString (body.country.orElse (.str ""))).getD "")
    city := jsTrim ((castString (body.city.orElse (.str ""))).getD "")
    createdAt := now
    updatedAt := now }

/-- Document validation at `save()`: the schema validators of each path, and
the cast error of an invalid date of birth. -/
def validateNewUser (rt : Runtime) (body : RegisterBody) (u : User) : List (String × String) :=
  collectErrors
    [("firstName", validateRequired "First name is required" u.firstName),
     ("lastName", validateRequired "Last name is required" u.lastName),
     ("email", validateEmail u.email),
     ("password", validatePassword u.password),
     ("phone", validatePhone u.phone),
     ("dateOfBirth",
        if body.dateOfBirth.truthy && (rt.newDate body.dateOfBirth).isNone then
          some "Cast to date failed for value \"Invalid Date\" (type Date) at path \"dateOfBirth\""
        else none),
     ("gender", validateGender u.gender)]

/-- The call `newUser.save()` with the response that follows it: a
`ValidationError` is answered 400, a duplicate key (any other error) 500,
success 201. -/
def saveUser (db : Db) (errors : List (String × String)) (u : User) : Response × Db :=
  if !errors.isEmpty then
    (⟨400, .errorDetails (validationMessage "User validation failed" errors) errors⟩, db)
  else if userInsertConflict db.users u._id u.email then
    (⟨500, .error "Server error occurred during registration."⟩, db)
  else
    (⟨201, .registered u._id u.firstName u.lastName u.email
        "Registration successful. Please log in."⟩,
      { db with users := db.users ++ [u] })

/-- The handler `POST /api/auth/register`.  `now` is the clock, `newId` the
`_id` generated for the new document and `salt` the result of
`bcrypt.genSalt(10)`. -/
def register (rt : Runtime) (now : Nat) (newId : ObjectId) (salt : String) (db : Db)
    (body : RegisterBody) : Response × Db :=
  if !body.firstName.truthy || !body.lastName.truthy || !body.email.truthy
      || !body.password.truthy then
    (⟨400, .msg "Please enter all required fields: first name, last name, email, and password."⟩,
      db)
  else
    match findOneByEmail rt db.users body.email with
    | some _ => (⟨400, .msg "An account with this email already exists."⟩, db)
    | none =>
      match body.password with
      | .str password =>
        let passwordHash := rt.bcryptHash password salt
        let user := newUser rt now newId passwordHash body
        saveUser db (validateNewUser rt body user) user
      | _ =>
        -- bcrypt.hash rejects a password that is not a string
        (⟨500, .error "Server error occurred during registration."⟩, db)

/-- The fields `POST /login` reads from `req.body`. -/
structure LoginBody where
  email : JsVal
  password : JsVal
  deriving DecidableEq, Repr

/-- The handler `POST /api/auth/login`.  `secret` is `process.env.JWT_SECRET`
and `now` the clock in milliseconds. -/
def login (rt : Runtime) (secret : Option String) (now : Nat) (db : Db) (body : LoginBody) :
    Response :=
  if !body.email.truthy || !body.password.truthy then
    ⟨400, .msg "Please enter both email and password."⟩
  else
    match findOneByEmail rt db.users body.email with
    | none => ⟨400, .msg "Invalid credentials."⟩
    | some user =>
      match body.password with
      | .str password =>
        let isMatch := rt.bcryptCompare password user.password
        if !isMatch then ⟨400, .msg "Invalid credentials."⟩
        else
          match secret with
          | none => ⟨500, .error "Server configuration error: JWT secret missing."⟩
          | some key =>
            if key == "" then ⟨500, .error "Server configuration error: JWT secret missing."⟩
            else
              let token := jwtSign rt user._id key now
              ⟨200, .loggedIn token user._id user.firstName user.email "Login successful!"⟩
      | _ =>
        -- bcrypt.compare rejects a password that is not a string
        ⟨500, .error "Server error occurred during login."⟩

/-! ## routes/profile.js -/

/-- The fields `PUT /me` reads from `req.body`. -/
structure ProfileBody where
  firstName : JsVal
  lastName : JsVal
  email : JsVal
  phone : JsVal
  dateOfBirth : JsVal
  gender : JsVal
  country : JsVal
  city : JsVal
  deriving DecidableEq, Repr

/-- The object `profileFields`: a key is present (`some`) when it was assigned. -/
structure ProfileFields where
  firstName : Option JsVal
  lastName : Option JsVal
  email : Option JsVal
  phone : Option JsVal
  dateOfBirth : Option JsVal
  gender : Option JsVal
  country : Option JsVal
  city : Option JsVal
  deriving DecidableEq, Repr

/-- One line `if (v) profileFields.key = v`. -/
def ifTruthy (v : JsVal) : Option JsVal :=
  if v.truthy then some v else none

/-- The construction of `profileFields` from the request body. -/
def buildProfileFields (body : ProfileBody) : ProfileFields :=
  { firstName := ifTruthy body.firstName
    lastName := ifTruthy body.lastName
    email := ifTruthy body.email
    phone := ifTruthy body.phone
    dateOfBirth := ifTruthy body.dateOfBirth
    gender := ifTruthy body.gender
    country := ifTruthy body.country
    city := ifTruthy body.city }

/-- The update `{ $set: profileFields }` after casting by the schema. -/
structure UserUpdate where
  firstName : Option String
  lastName : Option String
  email : Option String
  phone : Option String
  dateOfBirth : Option Int
  gender : Option String
  country : Option String
  city : Option String
  deriving DecidableEq, Repr

/-- Mongoose casts the update by the schema and applies the setters of each
path; a value that is no date raises a `CastError` naming the path. -/
def castUpdate (rt : Runtime) (f : ProfileFields) : Except String UserUpdate :=
  match f.dateOfBirth.map rt.castDate with
  | some none => .error "dateOfBirth"
  | dateOfBirth =>
    .ok
      { firstName := (f.firstName.bind castString).map jsTrim
        lastName := (f.lastName.bind castString).map jsTrim
        email := (f.email.bind castString).map (normalizeEmail rt)
        phone := (f.phone.bind castString).map jsTrim
        dateOfBirth := dateOfBirth.join
        gender := f.gender.bind castString
        country := (f.country.bind castString).map jsTrim
        city := (f.city.bind castString).map jsTrim }

/-- Update validators (`runValidators: true`): the validators of the paths
present in the update. -/
def validateUpdate (up : UserUpdate) : List (String × String) :=
  collectErrors
    [("firstName", up.firstName.bind (validateRequired "First name is required")),
     ("lastName", up.lastName.bind (validateRequired "Last name is required")),
     ("email", up.email.bind validateEmail),
     ("phone", up.phone.bind validatePhone),
     ("gender", up.gender.bind validateGender)]

/-- The document after `$set`, with `updatedAt` refreshed by `timestamps: true`. -/
def applyUpdate (now : Nat) (up : UserUpdate) (u : User) : User :=
  { u with
    firstName := up.firstName.getD u.firstName
    lastName := up.lastName.getD u.lastName
    email := up.email.getD u.email
    phone := up.phone.getD u.phone
    dateOfBirth := match up.dateOfBirth with
      | some d => some d
      | none => u.dateOfBirth
    gender := up.gender.getD u.gender
    country := up.country.getD u.country
    city := up.city.getD u.city
    updatedAt := now }

/-- Replace the first element satisfying `p` by its image under `f`. -/
def updateFirst {α : Type} (p : α → Bool) (f : α → α) : List α → List α
  | [] => []
  | x :: xs => if p x then f x :: xs else x :: updateFirst p f xs

/-- The unique index on `email`: whether giving this email to the document
`id` raises the duplicate-key error `E11000`. -/
def userUpdateConflict (users : List User) (id : ObjectId) (email : Option String) : Bool :=
  match email with
  | none => false
  | some e => users.any fun u => u._id != id && u.email == e

/-- The uniqueness check of `PUT /me`:
`if (email) { existing = await User.findOne({ email }); if (existing &&
existing._id.toString() !== req.user.id) ... }`. -/
def emailInUse (rt : Runtime) (users : List User) (userId : ObjectId) (email : JsVal) : Bool :=
  if email.truthy then
    match findOneByEmail rt users email with
    | some existingUserWithEmail => existingUserWithEmail._id != userId
    | none => false
  else false

/-- The call `User.findByIdAndUpdate(req.user.id, { $set: profileFields },
{ new: true, runValidators: true, select: '-password' })` with the response
that follows it: the update is cast, validated, then applied to the document
with that id. -/
def findByIdAndUpdate (rt : Runtime) (now : Nat) (db : Db) (userId : ObjectId)
    (profileFields : ProfileFields) : Response × Db :=
  match castUpdate rt profileFields with
  | .error path => (⟨400, .msg ("Invalid data format for: " ++ path)⟩, db)
  | .ok up =>
    let errors := validateUpdate up
    if !errors.isEmpty then
      (⟨400, .msg (validationMessage "Validation failed" errors)⟩, db)
    else
      match findById db.users userId with
      | none => (⟨404, .msg "User not found."⟩, db)
      | some found =>
        if userUpdateConflict db.users userId up.email then
          (⟨500, .msg "Server error occurred while updating profile."⟩, db)
        else
          let user := applyUpdate now up found
          (⟨200, .profile "Profile updated successfully." user.view⟩,
            { db with
              users := updateFirst (fun u => u._id == userId) (applyUpdate now up) db.users })

/-- The handler `PUT /api/profile/me` behind the gate; `userId` is
`req.user.id` and `now` the clock. -/
def updateProfile (rt : Runtime) (now : Nat) (db : Db) (userId : ObjectId)
    (body : ProfileBody) : Response × Db :=
  let profileFields := buildProfileFields body
  if emailInUse rt db.users userId body.email then
    (⟨400, .msg "This email is already in use by another account."⟩, db)
  else
    findByIdAndUpdate rt now db userId profileFields

/-- The handler `DELETE /api/profile/me` behind the gate. -/
def deleteAccount (db : Db) (userId : ObjectId) : Response × Db :=
  -- User.findByIdAndDelete(req.user.id)
  match findById db.users userId with
  | none => (⟨404, .msg "User not found."⟩, db)
  | some _ =>
    (⟨200, .msg "Your account has been successfully deleted."⟩,
      { db with users := db.users.eraseP fun u => u._id == userId })

/-! ## routes/userOpportunities.js -/

/-- The unique indexes of the `userOpportunities` collection (`_id`, and the
compound index `{ user: 1, opportunity: 1 }`): whether inserting the document
raises the duplicate-key error with code 11000. -/
def signupInsertConflict (signups : List UserOpportunity) (doc : UserOpportunity) : Bool :=
  signups.any fun s => s._id == doc._id || (s.user == doc.user && s.opportunity == doc.opportunity)

/-- The handler `POST /api/user-opportunities` behind the gate.  The handler
awaits between its queries, so the signups read by the pre-check (`seen`) and
the collection at the time of `save()` (`current`) are separate inputs; the
result is the response and the collection after the request. -/
def createSignup (rt : Runtime) (now : Nat) (newId : ObjectId) (opportunities : List Opportunity)
    (seen current : List UserOpportunity) (userId : ObjectId) (opportunityId : JsVal) :
    Response × List UserOpportunity :=
  if !opportunityId.truthy then
    (⟨400, .msg "Opportunity ID is required"⟩, current)
  else
    -- Opportunity.findById(opportunityId)
    match rt.castObjectId opportunityId with
    | none => (⟨400, .msg "Invalid Opportunity ID format"⟩, current)
    | some oid =>
      match opportunities.find? fun o => o._id == oid with
      | none => (⟨404, .msg "Volunteer opportunity not found"⟩, current)
      | some _ =>
        -- UserOpportunity.findOne({ user: userId, opportunity: opportunityId })
        match seen.find? fun s => s.user == userId && s.opportunity == oid with
        | some _ => (⟨400, .msg "You have already signed up for this opportunity"⟩, current)
        | none =>
          let userOpportunity : UserOpportunity :=
            { _id := newId, user := userId, opportunity := oid, signedUpAt := now }
          -- userOpportunity.save()
          if signupInsertConflict current userOpportunity then
            (⟨400, .msg
              "You have already signed up for this opportunity (duplicate key error)"⟩,
              current)
          else
            (⟨201, .signedUp "Successfully signed up for the opportunity" userOpportunity⟩,
              current ++ [userOpportunity])

/-- The handler `POST /api/user-opportunities` when no other request runs
between its queries: every query sees the same collection. -/
def signUp (rt : Runtime) (now : Nat) (newId : ObjectId) (db : Db) (userId : ObjectId)
    (opportunityId : JsVal) : Response × Db :=
  let r := createSignup rt now newId db.opportunities db.userOpportunities
    db.userOpportunities userId opportunityId
  (r.1, { db with userOpportunities := r.2 })

/-! ## The virtual `fullName` and the read routes of users, opportunities and signups -/

/-- JavaScript truthiness of a string path of a document: set and not empty. -/
def truthyString (v : Option String) : Bool :=
  v.any fun s => s != ""

/-- The getter of `userSchema.virtual('fullName')`; `firstName` and `lastName`
are `this.firstName` and `this.lastName`, `none` when the path is not set, and
the result `none` is `null`. -/
def fullName (firstName lastName : Option String) : Option String :=
  if truthyString firstName && truthyString lastName then
    some (firstName.getD "" ++ " " ++ lastName.getD "")
  else if truthyString firstName then firstName
  else if truthyString lastName then lastName
  else none

/-- The handler `GET /api/profile/me` behind the gate. -/
def getProfile (db : Db) (userId : ObjectId) : Response :=
  match findById db.users userId with
  | none => ⟨404, .msg "User not found."⟩
  | some user => ⟨200, .user user.view (fullName (some user.firstName) (some user.lastName))⟩

/-- The handler `GET /api/opportunities`: newest first. -/
def listOpportunities (db : Db) : Response :=
  ⟨200, .opportunities
    (db.opportunities.insertionSort fun a b => a.dateCreated ≥ b.dateCreated)⟩

/-- The projection of `populate('opportunity', ['title', 'description',
'location', 'duration', 'volunteersNeeded'])`. -/
def Opportunity.view (o : Opportunity) : OpportunityView :=
  { _id := o._id, title := o.title, description := o.description, location := o.location,
    duration := o.duration, volunteersNeeded := o.volunteersNeeded }

/-- The handler `GET /api/user-opportunities/me` behind the gate. -/
def listMySignups (db : Db) (userId : ObjectId) : Response :=
  ⟨200, .signups
    ((db.userOpportunities.filter fun s => s.user == userId).map fun s =>
      (s, (db.opportunities.find? fun o => o._id == s.opportunity).map Opportunity.view))⟩

/-! ## express-validator -/

/-- The string express-validator hands to a standard validator.  A number is
rendered in decimal digits, which is `String(n)` for an integer below 10^21 in
absolute value (from there on JavaScript writes an exponent, which
`isNumeric` rejects). -/
def validatorToString : JsVal → String
  | .undefined => ""
  | .null => ""
  | .bool b => if b then "true" else "false"
  | .num n => toString n
  | .str s => s

/-- A decimal digit. -/
def isDigitChar (c : Char) : Bool :=
  let n := c.val.toNat
  48 ≤ n && n ≤ 57

/-- The pattern of validator.js `isNumeric`: `/^[+-]?([0-9]*[.])?[0-9]+$/`. -/
def numericPattern : Rx :=
  .seq (Rx.opt (.cls fun c => c == '+' || c == '-'))
    (.seq (Rx.opt (.seq (.star (.cls isDigitChar)) (.cls fun c => c == '.')))
      (Rx.plus (.cls isDigitChar)))

/-- The validator `isNumeric()`. -/
def isNumeric (v : JsVal) : Bool :=
  numericPattern.matchChars (validatorToString v).data

/-- The validator `not().isEmpty()`. -/
def isNotEmpty (v : JsVal) : Bool :=
  validatorToString v != ""

/-- The values of `DonationSchema.status.enum`, also the list of `isIn`. -/
def statusValues : List String :=
  ["pending", "completed", "failed"]

/-- One validation chain `check(param, msg)`: the error entry when the value
fails.  The field is read from the request body. -/
def checkField (param msg : String) (value : JsVal) (passes : Bool) : List FieldError :=
  if passes then [] else [{ value := value, msg := msg, param := param, location := "body" }]

/-- One chain with `.optional()`: an `undefined` value is not validated. -/
def checkOptional (param msg : String) (value : JsVal) (passes : Bool) : List FieldError :=
  if value == .undefined then [] else checkField param msg value passes

/-! ## routes/donations.js -/

/-- The fields the donation routes read from `req.body`. -/
structure DonationBody where
  amount : JsVal
  currency : JsVal
  paymentIntentId : JsVal
  status : JsVal
  deriving DecidableEq, Repr

/-- The response `res.status(500).send('Server Error')`. -/
def serverErrorText : Response :=
  ⟨500, .text "Server Error"⟩

/-- The response `res.status(404).json({ msg: 'Donation not found' })`. -/
def donationNotFound : Response :=
  ⟨404, .msg "Donation not found"⟩

/-- Mongoose cast of a value to a `Number` path: `undefined`, `null` and the
empty string give no number (`ok none`), a string is read by `Number`, and a
value that is no number raises a `CastError`.  Numbers are the integers of the
embedding: a string that denotes a number with a fractional part, which the
code casts and stores, has no value here unless the runtime gives it one. -/
def castNumber (rt : Runtime) : JsVal → Except Unit (Option Int)
  | .undefined => .ok none
  | .null => .ok none
  | .bool b => .ok (some (if b then 1 else 0))
  | .num n => .ok (some n)
  | .str s =>
    if s == "" then .ok none
    else
      match rt.toNumber s with
      | some n => .ok (some n)
      | none => .error ()

/-- The query `Donation.findById(id)` for a cast id. -/
def findDonation (donations : List Donation) (id : ObjectId) : Option Donation :=
  donations.find? fun d => d._id == id

/-- The embedded user of `populate('user', 'firstName lastName fullName email')`. -/
def populateUser (users : List User) (d : Donation) : Option PopulatedUser :=
  (d.user.bind fun uid => findById users uid).map fun u =>
    { _id := u._id, firstName := some u.firstName, lastName := some u.lastName,
      email := some u.email, fullName := fullName (some u.firstName) (some u.lastName) }

/-- The embedded user of `populate('user', 'username fullName')`: no stored
path is selected, so the virtual is computed without names. -/
def populateUserName (users : List User) (d : Donation) : Option PopulatedUser :=
  (d.user.bind fun uid => findById users uid).map fun u =>
    { _id := u._id, firstName := none, lastName := none, email := none,
      fullName := fullName none none }

/-- The handler `GET /api/donations`: newest first. -/
def listDonations (db : Db) : Response :=
  ⟨200, .donations
    ((db.donations.insertionSort fun a b => a.donatedAt ≥ b.donatedAt).map fun d =>
      (d, populateUserName db.users d))⟩

/-- The handler `GET /api/donations/:id`; `id` is `req.params.id`. -/
def getDonation (rt : Runtime) (db : Db) (id : String) : Response :=
  match rt.castObjectId (.str id) with
  | none =>
    -- CastError, err.kind === 'ObjectId'
    donationNotFound
  | some oid =>
    match findDonation db.donations oid with
    | none => donationNotFound
    | some donation => ⟨200, .donationWithUser donation (populateUser db.users donation)⟩

/-- The validation chains of `POST /api/donations`. -/
def checkCreateDonation (body : DonationBody) : List FieldError :=
  checkField "amount" "Amount is required and must be a number" body.amount
    (isNumeric body.amount) ++
  checkField "currency" "Currency is required" body.currency (isNotEmpty body.currency)

/-- Document validation of a new donation with a cast amount: `min: 1` on the
amount, and the status is one of the enumerated values (or `null`). -/
def donationValid (amount : Int) (status : Option String) : Bool :=
  decide (1 ≤ amount) &&
  (match status with
    | some s => statusValues.contains s
    | none => true)

/-- The handler `POST /api/donations` behind the gate.  `now` is the clock and
`newId` the generated `_id`. -/
def createDonation (rt : Runtime) (now : Nat) (newId : ObjectId) (db : Db) (userId : ObjectId)
    (body : DonationBody) : Response × Db :=
  let errors := checkCreateDonation body
  if !errors.isEmpty then
    (⟨400, .errors errors⟩, db)
  else
    -- new Donation({ user: req.user.id, amount, currency, paymentIntentId, status })
    let status : Option String :=
      if body.status == .undefined then some "completed" else castString body.status
    match castNumber rt body.amount with
    | .ok (some amount) =>
      if !donationValid amount status then
        -- ValidationError
        (serverErrorText, db)
      else if db.donations.any fun d => d._id == newId then
        -- duplicate key
        (serverErrorText, db)
      else
        let donation : Donation :=
          { _id := newId
            user := some userId
            amount := amount
            currency := (castString body.currency).getD "USD"
            paymentIntentId := castString body.paymentIntentId
            status := status
            donatedAt := now }
        (⟨200, .donation donation⟩, { db with donations := db.donations ++ [donation] })
    | _ =>
      -- ValidationError: the amount is required, or could not be cast
      (serverErrorText, db)

/-- The validation chains of `PUT /api/donations/:id`. -/
def checkUpdateDonation (body : DonationBody) : List FieldError :=
  checkOptional "amount" "Amount must be a number" body.amount (isNumeric body.amount) ++
  checkOptional "currency" "Currency is required" body.currency (isNotEmpty body.currency) ++
  checkOptional "status" "Invalid status" body.status
    (statusValues.contains (validatorToString body.status))

/-- The update `{ $set: donationFields }` applied to a donation; the schema
validators are not run (`runValidators` is not set). -/
def applyDonationFields (amount : Option Int) (body : DonationBody) (d : Donation) : Donation :=
  { d with
    amount := amount.getD d.amount
    currency := ((ifTruthy body.currency).bind castString).getD d.currency
    paymentIntentId := match (ifTruthy body.paymentIntentId).bind castString with
      | some p => some p
      | none => d.paymentIntentId
    status := match (ifTruthy body.status).bind castString with
      | some s => some s
      | none => d.status }

/-- The handler `PUT /api/donations/:id` behind the gate. -/
def updateDonation (rt : Runtime) (db : Db) (id : String) (body : DonationBody) :
    Response × Db :=
  let errors := checkUpdateDonation body
  if !errors.isEmpty then
    (⟨400, .errors errors⟩, db)
  else
    -- Donation.findById(req.params.id)
    match rt.castObjectId (.str id) with
    | none => (donationNotFound, db)
    | some oid =>
      match findDonation db.donations oid with
      | none => (donationNotFound, db)
      | some found =>
        -- Donation.findByIdAndUpdate(req.params.id, { $set: donationFields }, { new: true })
        match (if body.amount.truthy then castNumber rt body.amount else .ok none) with
        | .error _ =>
          -- CastError, err.kind === 'Number'
          (serverErrorText, db)
        | .ok amount =>
          let donation := applyDonationFields amount body found
          (⟨200, .donation donation⟩,
            { db with
              donations :=
                updateFirst (fun d => d._id == oid) (applyDonationFields amount body)
                  db.donations })

/-- The handler `DELETE /api/donations/:id` behind the gate. -/
def deleteDonation (rt : Runtime) (db : Db) (id : String) : Response × Db :=
  match rt.castObjectId (.str id) with
  | none => (donationNotFound, db)
  | some oid =>
    match findDonation db.donations oid with
    | none => (donationNotFound, db)
    | some _ =>
      (⟨200, .msg "Donation removed"⟩,
        { db with donations := db.donations.eraseP fun d => d._id == oid })

/-! ## Request sequences and store invariants -/

/-- The requests that write the `users` collection, with the inputs each
handler reads from its environment. -/
inductive UserRequest where
  | register (now : Nat) (newId : ObjectId) (salt : String) (body : RegisterBody)
  | updateProfile (now : Nat) (userId : ObjectId) (body : ProfileBody)
  | deleteAccount (userId : ObjectId)
  deriving DecidableEq, Repr

/-- The database after one request. -/
def UserRequest.apply (rt : Runtime) (db : Db) : UserRequest → Db
  | .register now newId salt body => (WavesOfChange.register rt now newId salt db body).2
  | .updateProfile now userId body => (WavesOfChange.updateProfile rt now db userId body).2
  | .deleteAccount userId => (WavesOfChange.deleteAccount db userId).2

/-- The database after a sequence of requests, handled one after the other. -/
def runUserRequests (rt : Runtime) (db : Db) (reqs : List UserRequest) : Db :=
  reqs.foldl (UserRequest.apply rt) db

/-- No two user documents have the same stored email. -/
def EmailsUnique (users : List User) : Prop :=
  users.Pairwise fun a b => a.email ≠ b.email

instance (users : List User) : Decidable (EmailsUnique users) := by
  unfold EmailsUnique; infer_instance

/-- No two user documents have the same `_id` (the index every collection
has). -/
def IdsUnique (users : List User) : Prop :=
  users.Pairwise fun a b => a._id ≠ b._id

instance (users : List User) : Decidable (IdsUnique users) := by
  unfold IdsUnique; infer_instance

/-- A signup request: the inputs of `createSignup`, among them the signups
its pre-check read (requests may interleave at the handler's awaits). -/
structure SignupRequest where
  now : Nat
  newId : ObjectId
  userId : ObjectId
  opportunityId : JsVal
  seen : List UserOpportunity
  deriving DecidableEq, Repr

/-- The signup collection after a sequence of create requests, starting from
`signups`.  No route writes the opportunities, which stay fixed. -/
def runSignups (rt : Runtime) (opportunities : List Opportunity)
    (signups : List UserOpportunity) (reqs : List SignupRequest) : List UserOpportunity :=
  reqs.foldl
    (fun current r =>
      (createSignup rt r.now r.newId opportunities r.seen current r.userId r.opportunityId).2)
    signups

/-- No two signup documents have the same (user, opportunity) pair. -/
def SignupsUnique (signups : List UserOpportunity) : Prop :=
  signups.Pairwise fun a b => ¬(a.user = b.user ∧ a.opportunity = b.opportunity)

instance (signups : List UserOpportunity) : Decidable (SignupsUnique signups) := by
  unfold SignupsUnique; infer_instance

/-- Two user documents differ in id and in email. -/
def UsersDistinct (a b : User) : Prop :=
  a._id ≠ b._id ∧ a.email ≠ b.email

/-- Signups are on pairwise different pairs and refer to stored opportunities. -/
def SignupsOk (opportunities : List Opportunity) (signups : List UserOpportunity) : Prop :=
  SignupsUnique signups ∧ ∀ s ∈ signups, ∃ o ∈ opportunities, o._id = s.opportunity

/-- The requests that write the `donations` collection. -/
inductive DonationRequest where
  | create (now : Nat) (newId : ObjectId) (userId : ObjectId) (body : DonationBody)
  | update (id : String) (body : DonationBody)
  | delete (id : String)
  deriving DecidableEq, Repr

/-- The database after one donation request. -/
def DonationRequest.apply (rt : Runtime) (db : Db) : DonationRequest → Db
  | .create now newId userId body => (createDonation rt now newId db userId body).2
  | .update id body => (updateDonation rt db id body).2
  | .delete id => (deleteDonation rt db id).2

/-- The database after a sequence of donation requests. -/
def runDonationRequests (rt : Runtime) (db : Db) (reqs : List DonationRequest) : Db :=
  reqs.foldl (DonationRequest.apply rt) db

/-- Every stored donation has an amount of at least 1. -/
def AmountsAtLeastOne (donations : List Donation) : Prop :=
  ∀ d ∈ donations, 1 ≤ d.amount

instance (donations : List Donation) : Decidable (AmountsAtLeastOne donations) := by
  unfold AmountsAtLeastOne; infer_instance

/-! ## Error responses -/

/-- The routes of the server. -/
inductive Route where
  | register
  | login
  | getProfile
  | updateProfile
  | deleteAccount
  | listDonations
  | getDonation
  | createDonation
  | updateDonation
  | deleteDonation
  | listOpportunities
  | createSignup
  | listMySignups
  deriving DecidableEq, Repr

/-- The response at the end of the `catch` block of each route: what is sent
for a failure that no earlier branch of the block recognises. -/
def Route.serverError : Route → Response
  | .register => ⟨500, .error "Server error occurred during registration."⟩
  | .login => ⟨500, .error "Server error occurred during login."⟩
  | .getProfile => ⟨500, .msg "Server error occurred while fetching profile."⟩
  | .updateProfile => ⟨500, .msg "Server error occurred while updating profile."⟩
  | .deleteAccount => ⟨500, .msg "Server error occurred while deleting account."⟩
  | .listDonations => serverErrorText
  | .getDonation => serverErrorText
  | .createDonation => serverErrorText
  | .updateDonation => serverErrorText
  | .deleteDonation => serverErrorText
  | .listOpportunities => serverErrorText
  | .createSignup => serverErrorText
  | .listMySignups => serverErrorText

/-- An error status: 400, 401, 404 or 500. -/
def Response.isError (r : Response) : Bool :=
  r.status == 400 || r.status == 401 || r.status == 404 || r.status == 500

/-- The body is a JSON object (`res.json` of an object), not text. -/
def Body.isJsonObject : Body → Bool
  | .text _ => false
  | .donations _ => false
  | .opportunities _ => false
  | .signups _ => false
  | _ => true

/-- The body has a `msg` or an `error` field. -/
def Body.hasMsgOrError : Body → Bool
  | .msg _ => true
  | .error _ => true
  | .errorDetails _ _ => true
  | .signedUp _ _ => true
  | _ => false

/-- The body carries error detail objects: the `details: err.errors` of a
validation failure. -/
def Body.hasErrorDetails : Body → Bool
  | .errorDetails _ _ => true
  | _ => false

/-- An error body with a human-readable `msg` or `error` field and nothing
else. -/
def Body.isMessage : Body → Bool
  | .msg _ => true
  | .error _ => true
  | _ => false

/-- An error body `{ errors: [...] }` of express-validator whose entries each
carry a non-empty `msg`. -/
def Body.isValidationErrors : Body → Bool
  | .errors es => es.all fun e => e.msg != ""
  | _ => false

/-- The plain text body `Server Error`. -/
def Body.isServerErrorText : Body → Bool
  | .text s => s == "Server Error"
  | _ => false

/-! ## A concrete runtime

An executable instance of `Runtime` for evaluating the handlers on concrete
requests: ASCII lower-casing, decimal dates and ids, and a transparent stand-in
for the hash and for the token format. -/

/-- Decimal digits to a number; `none` when a character is no digit or the
list is empty. -/
def parseDigits : List Char → Option Nat
  | [] => none
  | cs => cs.foldl
      (fun acc c => acc.bind fun n =>
        if c.isDigit then some (10 * n + (c.toNat - 48)) else none)
      (some 0)

/-- An optional number as one number: 0 for `none`. -/
def encodeOpt : Option Nat → Nat
  | none => 0
  | some n => n + 1

/-- Inverse of `encodeOpt`. -/
def decodeOpt : Nat → Option Nat
  | 0 => none
  | n + 1 => some n

/-- The concrete runtime. -/
def sampleRuntime : Runtime where
  toLowerCase s := String.mk (s.data.map Char.toLower)
  bcryptHash password salt := "$2a$10$" ++ salt ++ password
  bcryptCompare password hash := hash.data.drop 29 == password.data
  newDate
    | .num n => some n
    | .str s => (parseDigits s.data).map Int.ofNat
    | _ => none
  castDate
    | .num n => some n
    | .str s => (parseDigits s.data).map Int.ofNat
    | _ => none
  jwsEncode c key :=
    String.mk ([Char.ofNat c.id, Char.ofNat c.iat, Char.ofNat (encodeOpt c.nbf),
      Char.ofNat (encodeOpt c.exp)] ++ key.data)
  jwsDecode token key :=
    match token.data with
    | a :: b :: n :: e :: rest =>
      if rest == key.data then
        some { id := a.toNat, iat := b.toNat, nbf := decodeOpt n.toNat, exp := decodeOpt e.toNat }
      else none
    | _ => none
  castObjectId
    | .str s => parseDigits s.data
    | _ => none
  toNumber s :=
    match s.data with
    | '-' :: cs => (parseDigits cs).map fun n => -Int.ofNat n
    | '+' :: cs => (parseDigits cs).map Int.ofNat
    | cs => (parseDigits cs).map Int.ofNat

/-! ## Sample data -/

/-- A salt of the length bcrypt uses. -/
def sampleSalt : String := "abcdefghijklmnopqrstuv"

/-- A registration body with the four required fields and no optional one. -/
def sampleRegisterBody (email password : String) : RegisterBody :=
  { firstName := .str "A", lastName := .str "B", email := .str email, password := .str password,
    phone := .undefined, dateOfBirth := .undefined, gender := .undefined,
    country := .undefined, city := .undefined }

/-- The document stored for `sampleRegisterBody "a@b.com" "secret1"` at clock 5
with generated id 1. -/
def sampleUser : User :=
  { _id := 1, firstName := "A", lastName := "B", email := "a@b.com",
    password := "$2a$10$abcdefghijklmnopqrstuvsecret1", phone := "", dateOfBirth := none,
    gender := "", country := "", city := "", createdAt := 5, updatedAt := 5 }

/-- A database holding `sampleUser` only. -/
def sampleDb : Db :=
  { users := [sampleUser], donations := [], opportunities := [], userOpportunities := [] }

/-- An update body that supplies no field. -/
def emptyProfileBody : ProfileBody :=
  { firstName := .undefined, lastName := .undefined, email := .undefined, phone := .undefined,
    dateOfBirth := .undefined, gender := .undefined, country := .undefined, city := .undefined }

/-- What a profile update with this body leaves alone in a user document
(`u` before, `v` after): the id, the password, the creation time, and every
updatable field whose incoming value is falsy. -/
def ProfileFrame (body : ProfileBody) (u v : User) : Prop :=
  v._id = u._id ∧ v.password = u.password ∧ v.createdAt = u.createdAt ∧
  (body.firstName.truthy = false → v.firstName = u.firstName) ∧
  (body.lastName.truthy = false → v.lastName = u.lastName) ∧
  (body.email.truthy = false → v.email = u.email) ∧
  (body.phone.truthy = false → v.phone = u.phone) ∧
  (body.dateOfBirth.truthy = false → v.dateOfBirth = u.dateOfBirth) ∧
  (body.gender.truthy = false → v.gender = u.gender) ∧
  (body.country.truthy = false → v.country = u.country) ∧
  (body.city.truthy = false → v.city = u.city)

/-- A second user document, with id 2 and email "c@d.com". -/
def sampleUser2 : User :=
  { sampleUser with _id := 2, firstName := "C", lastName := "D", email := "c@d.com" }

/-- A database holding `sampleUser` and `sampleUser2`. -/
def sampleDb2 : Db :=
  { users := [sampleUser, sampleUser2], donations := [], opportunities := [],
    userOpportunities := [] }

/-- The response of `PUT /me` when the email belongs to another account. -/
def emailInUseResponse : Response :=
  ⟨400, .msg "This email is already in use by another account."⟩

/-- An opportunity with id 10. -/
def sampleOpportunity : Opportunity :=
  { _id := 10, title := "Beach cleanup", description := "", location := "", duration := "",
    volunteersNeeded := 5, dateCreated := 0 }

/-- The two responses that reject a repeated signup: the one of the
application pre-check and the one of the duplicate-key error 11000. -/
def alreadySignedUpResponses : List Response :=
  [⟨400, .msg "You have already signed up for this opportunity"⟩,
   ⟨400, .msg "You have already signed up for this opportunity (duplicate key error)"⟩]

/-- One signup request of user 1 for opportunity 10. -/
def sampleSignupRequests : List SignupRequest :=
  [{ now := 1, newId := 100, userId := 1, opportunityId := .str "10", seen := [] }]

/-- A donation of 5 by user 1, with id 20. -/
def sampleDonation : Donation :=
  { _id := 20, user := some 1, amount := 5, currency := "USD", paymentIntentId := none,
    status := some "completed", donatedAt := 1 }

/-- A database with one user, one donation and one opportunity. -/
def sampleDb3 : Db :=
  { users := [sampleUser], donations := [sampleDonation], opportunities := [sampleOpportunity],
    userOpportunities := [] }

/-- A donation body with an amount and a currency only. -/
def sampleDonationBody (amount currency : JsVal) : DonationBody :=
  { amount := amount, currency := currency, paymentIntentId := .undefined,
    status := .undefined }

/-- The requests "donate 5", then "set the amount of that donation to -5". -/
def sampleDonationRequests : List DonationRequest :=
  [.create 1 20 1 (sampleDonationBody (.num 5) (.str "USD")),
   .update "20" (sampleDonationBody (.num (-5)) .undefined)]

/-! ## The auth gate -/

/-- C1: the gate calls the next handler exactly when the `x-auth-token` header
is truthy and verification succeeds, and then `req.user` is exactly the id
decoded from the token and no response is sent; an absent (or empty) header
gives 401 "No token, authorization denied", a failed verification gives 401
"Token is not valid", and in both rejections the next handler is not called. -/
theorem auth_gate (verify : String → Except String JwtClaims) (header : Option String) :
    ((auth verify header).nextCalled = true ↔
      ∃ t c, header = some t ∧ t ≠ "" ∧ verify t = .ok c) ∧
    (∀ t c, header = some t → t ≠ "" → verify t = .ok c →
      auth verify header =
        { reqUser := some { id := c.id }, response := none, nextCalled := true }) ∧
    (header = none ∨ header = some "" →
      auth verify header =
        { reqUser := none
          response := some ⟨401, .msg "No token, authorization denied"⟩
          nextCalled := false }) ∧
    (∀ t e, header = some t → t ≠ "" → verify t = .error e →
      auth verify header =
        { reqUser := none
          response := some ⟨401, .msg "Token is not valid"⟩
          nextCalled := false }) := by
  cases header with
  | none => simp [auth]
  | some t =>
    by_cases ht : t = ""
    · subst ht
      refine ⟨by simp [auth], ?_, by simp [auth], ?_⟩
      · intro t c h hne; exact absurd (Option.some.inj h).symm hne
      · intro t e h hne; exact absurd (Option.some.inj h).symm hne
    · cases hv : verify t with
      | ok c =>
        refine ⟨by simp [auth, ht, hv], ?_, by simp [ht], ?_⟩
        · intro t1 c1 h _ hv1
          cases Option.some.inj h
          rw [hv] at hv1
          cases hv1
          simp [auth, ht, hv]
        · intro t1 e h _ hv1
          cases Option.some.inj h
          rw [hv] at hv1
          cases hv1
      | error e =>
        refine ⟨by simp [auth, ht, hv], ?_, by simp [ht], ?_⟩
        · intro t1 c1 h _ hv1
          cases Option.some.inj h
          rw [hv] at hv1
          cases hv1
        · intro t1 e1 h _ _
          cases Option.some.inj h
          simp [auth, ht, hv]

/-! ## Registration -/

theorem findOneByEmail_some_spec (rt : Runtime) (users : List User) (email : JsVal)
    (v : User) (h : findOneByEmail rt users email = some v) :
    v ∈ users ∧ ∃ s, castString email = some s ∧ v.email = normalizeEmail rt s := by
  unfold findOneByEmail at h
  cases hc : castString email with
  | none => simp [hc] at h
  | some s =>
    simp only [hc] at h
    refine ⟨List.mem_of_find?_eq_some h, s, rfl, ?_⟩
    have := List.find?_some h
    simpa using this

theorem findOneByEmail_of_mem (rt : Runtime) (users : List User) (email : JsVal) (s : String)
    (u : User) (hc : castString email = some s) (hu : u ∈ users)
    (he : u.email = normalizeEmail rt s) :
    ∃ v, findOneByEmail rt users email = some v := by
  unfold findOneByEmail
  simp only [hc]
  cases hf : users.find? (fun u => u.email == normalizeEmail rt s) with
  | some v => exact ⟨v, rfl⟩
  | none =>
    have := List.find?_eq_none.mp hf u hu
    simp [he] at this

theorem findOneByEmail_eq_none (rt : Runtime) (users : List User) (email : JsVal) (s : String)
    (hc : castString email = some s) (h : findOneByEmail rt users email = none) :
    ∀ u ∈ users, u.email ≠ normalizeEmail rt s := by
  intro u hu he
  obtain ⟨v, hv⟩ := findOneByEmail_of_mem rt users email s u hc hu he
  rw [h] at hv
  cases hv

/-- C2: when the store holds a user whose stored email is the normal form of
`e`, a registration request that supplies the four required fields and whose
email equals `e` up to letter case is answered 400 ("An account with this
email already exists.") and the database is unchanged. -/
theorem register_duplicate_email (rt : Runtime) (now : Nat) (newId : ObjectId) (salt : String)
    (db : Db) (body : RegisterBody) (u : User) (e e' : String)
    (hu : u ∈ db.users) (hstored : u.email = normalizeEmail rt e)
    (hemail : body.email = .str e') (hcase : rt.toLowerCase e' = rt.toLowerCase e)
    (hfirst : body.firstName.truthy = true) (hlast : body.lastName.truthy = true)
    (hmail : body.email.truthy = true) (hpw : body.password.truthy = true) :
    register rt now newId salt db body =
      (⟨400, .msg "An account with this email already exists."⟩, db) := by
  have hnorm : u.email = normalizeEmail rt e' := by
    rw [hstored]; unfold normalizeEmail; rw [hcase]
  obtain ⟨v, hv⟩ := findOneByEmail_of_mem rt db.users body.email e' u
    (by rw [hemail]; rfl) hu hnorm
  unfold register
  simp [hfirst, hlast, hmail, hpw, hv]

theorem register_duplicate_email_witness :
    register sampleRuntime 9 2 sampleSalt sampleDb (sampleRegisterBody " A@B.com" "secret2") =
      (⟨400, .msg "An account with this email already exists."⟩, sampleDb) :=
  register_duplicate_email sampleRuntime 9 2 sampleSalt sampleDb
    (sampleRegisterBody " A@B.com" "secret2") sampleUser " a@b.com" " A@B.com"
    (by decide) (by decide) rfl (by decide) (by decide) (by decide) (by decide) (by decide)

/-! ## Email uniqueness -/

theorem register_users (rt : Runtime) (now : Nat) (newId : ObjectId) (salt : String) (db : Db)
    (body : RegisterBody) :
    (register rt now newId salt db body).2 = db ∨
    ∃ u : User, userInsertConflict db.users u._id u.email = false ∧
      (register rt now newId salt db body).1.status = 201 ∧
      (register rt now newId salt db body).2 = { db with users := db.users ++ [u] } := by
  unfold register
  split
  · exact Or.inl rfl
  · split
    · exact Or.inl rfl
    · split
      · dsimp only
        unfold saveUser
        split
        · exact Or.inl rfl
        · split
          · exact Or.inl rfl
          · rename_i hconf
            exact Or.inr ⟨_, by simpa using hconf, rfl, rfl⟩
      · exact Or.inl rfl

theorem mem_updateFirst {α : Type} (p : α → Bool) (f : α → α) (l : List α) (z : α)
    (hz : z ∈ updateFirst p f l) : z ∈ l ∨ ∃ y ∈ l, p y = true ∧ z = f y := by
  induction l with
  | nil => simp [updateFirst] at hz
  | cons x xs ih =>
    unfold updateFirst at hz
    by_cases hp : p x = true
    · simp only [hp, if_true, List.mem_cons] at hz
      rcases hz with rfl | hz
      · exact Or.inr ⟨x, List.mem_cons_self _ _, hp, rfl⟩
      · exact Or.inl (List.mem_cons_of_mem _ hz)
    · have hp' : p x = false := by simpa using hp
      simp only [hp', Bool.false_eq_true, if_false, List.mem_cons] at hz
      rcases hz with rfl | hz
      · exact Or.inl (List.mem_cons_self _ _)
      · rcases ih hz with h | ⟨y, hy, hpy, rfl⟩
        · exact Or.inl (List.mem_cons_of_mem _ h)
        · exact Or.inr ⟨y, List.mem_cons_of_mem _ hy, hpy, rfl⟩

theorem pairwise_updateFirst {α : Type} (R : α → α → Prop) (p : α → Bool) (f : α → α)
    (l : List α) (hl : l.Pairwise R)
    (hleft : ∀ x ∈ l, p x = true → ∀ y ∈ l, R x y → R (f x) y)
    (hright : ∀ x ∈ l, p x = true → ∀ y ∈ l, R y x → R y (f x)) :
    (updateFirst p f l).Pairwise R := by
  induction l with
  | nil => simp [updateFirst]
  | cons x xs ih =>
    rw [List.pairwise_cons] at hl
    unfold updateFirst
    by_cases hp : p x = true
    · simp only [hp, if_true, List.pairwise_cons]
      refine ⟨fun y hy => ?_, hl.2⟩
      exact hleft x (List.mem_cons_self _ _) hp y (List.mem_cons_of_mem _ hy) (hl.1 y hy)
    · have hp' : p x = false := by simpa using hp
      simp only [hp', Bool.false_eq_true, if_false, List.pairwise_cons]
      refine ⟨fun z hz => ?_, ih hl.2 ?_ ?_⟩
      · rcases mem_updateFirst p f xs z hz with h | ⟨y, hy, hpy, rfl⟩
        · exact hl.1 z h
        · exact hright y (List.mem_cons_of_mem _ hy) hpy x (List.mem_cons_self _ _) (hl.1 y hy)
      · intro a ha hpa y hy
        exact hleft a (List.mem_cons_of_mem _ ha) hpa y (List.mem_cons_of_mem _ hy)
      · intro a ha hpa y hy
        exact hright a (List.mem_cons_of_mem _ ha) hpa y (List.mem_cons_of_mem _ hy)

theorem updateProfile_users (rt : Runtime) (now : Nat) (db : Db) (userId : ObjectId)
    (body : ProfileBody) :
    (updateProfile rt now db userId body).2 = db ∨
    ∃ up : UserUpdate, castUpdate rt (buildProfileFields body) = .ok up ∧
      userUpdateConflict db.users userId up.email = false ∧
      (updateProfile rt now db userId body).1.status = 200 ∧
      (updateProfile rt now db userId body).2 =
        { db with
          users := updateFirst (fun u => u._id == userId) (applyUpdate now up) db.users } := by
  unfold updateProfile
  dsimp only
  split
  · exact Or.inl rfl
  · unfold findByIdAndUpdate
    cases hup : castUpdate rt (buildProfileFields body) with
    | error path => exact Or.inl rfl
    | ok up =>
      dsimp only
      by_cases herr : (!(validateUpdate up).isEmpty) = true
      · rw [if_pos herr]; exact Or.inl rfl
      · rw [if_neg herr]
        cases hfind : findById db.users userId with
        | none => exact Or.inl rfl
        | some found =>
          dsimp only
          by_cases hconf : userUpdateConflict db.users userId up.email = true
          · rw [if_pos hconf]; exact Or.inl rfl
          · rw [if_neg hconf]
            exact Or.inr ⟨up, rfl, by simpa using hconf, rfl, rfl⟩

theorem deleteAccount_users (db : Db) (userId : ObjectId) :
    (deleteAccount db userId).2 =
      { db with users := db.users.eraseP fun u => u._id == userId } := by
  unfold deleteAccount
  split
  · rename_i h
    have : db.users.eraseP (fun u => u._id == userId) = db.users :=
      List.eraseP_of_forall_not (by simpa using List.find?_eq_none.mp h)
    simp [this]
  · rfl

theorem usersDistinct_append (users : List User) (u : User)
    (h : users.Pairwise UsersDistinct)
    (hconf : userInsertConflict users u._id u.email = false) :
    (users ++ [u]).Pairwise UsersDistinct := by
  rw [List.pairwise_append]
  refine ⟨h, List.pairwise_singleton _ _, ?_⟩
  intro a ha b hb
  rw [List.mem_singleton] at hb
  subst hb
  unfold userInsertConflict at hconf
  have := (List.any_eq_false.mp hconf) a ha
  simpa [UsersDistinct, not_or] using this

theorem usersDistinct_update (now : Nat) (users : List User) (userId : ObjectId)
    (up : UserUpdate) (h : users.Pairwise UsersDistinct)
    (hconf : userUpdateConflict users userId up.email = false) :
    (updateFirst (fun u => u._id == userId) (applyUpdate now up) users).Pairwise UsersDistinct := by
  have hother : ∀ y ∈ users, y._id ≠ userId → ∀ e, up.email = some e → y.email ≠ e := by
    intro y hy hne e he
    rw [he] at hconf
    unfold userUpdateConflict at hconf
    have := (List.any_eq_false.mp hconf) y hy
    simpa [hne] using this
  apply pairwise_updateFirst _ _ _ _ h
  · intro x _ hpx y hy hxy
    have hx : x._id = userId := by simpa using hpx
    refine ⟨by simpa [applyUpdate] using hxy.1, ?_⟩
    cases he : up.email with
    | none => simpa [applyUpdate, he] using hxy.2
    | some e =>
      have := hother y hy (fun hyid => hxy.1 (hx.trans hyid.symm)) e he
      simpa [applyUpdate, he] using fun h' => this h'.symm
  · intro x _ hpx y hy hyx
    have hx : x._id = userId := by simpa using hpx
    refine ⟨by simpa [applyUpdate] using hyx.1, ?_⟩
    cases he : up.email with
    | none => simpa [applyUpdate, he] using hyx.2
    | some e =>
      have := hother y hy (fun hyid => hyx.1 (hyid.trans hx.symm)) e he
      simpa [applyUpdate, he] using this

theorem usersDistinct_apply (rt : Runtime) (db : Db) (req : UserRequest)
    (h : db.users.Pairwise UsersDistinct) :
    (req.apply rt db).users.Pairwise UsersDistinct := by
  cases req with
  | register now newId salt body =>
    rcases register_users rt now newId salt db body with hr | ⟨u, hconf, _, hr⟩
    · simpa [UserRequest.apply, hr] using h
    · simpa [UserRequest.apply, hr] using usersDistinct_append db.users u h hconf
  | updateProfile now userId body =>
    rcases updateProfile_users rt now db userId body with hr | ⟨up, _, hconf, _, hr⟩
    · simpa [UserRequest.apply, hr] using h
    · simpa [UserRequest.apply, hr] using usersDistinct_update now db.users userId up h hconf
  | deleteAccount userId =>
    simp only [UserRequest.apply, deleteAccount_users]
    exact h.sublist (List.eraseP_sublist _)

theorem usersDistinct_run (rt : Runtime) (reqs : List UserRequest) (db : Db)
    (h : db.users.Pairwise UsersDistinct) :
    (runUserRequests rt db reqs).users.Pairwise UsersDistinct := by
  induction reqs generalizing db with
  | nil => simpa [runUserRequests] using h
  | cons r rs ih =>
    simp only [runUserRequests, List.foldl_cons]
    exact ih _ (usersDistinct_apply rt db r h)

/-- C3: in every state reached from the empty database by a sequence of
register, profile-update and account-delete requests, no two user documents
have the same stored email (nor the same id). -/
theorem email_uniqueness_invariant (rt : Runtime) (reqs : List UserRequest) :
    EmailsUnique (runUserRequests rt Db.empty reqs).users ∧
    IdsUnique (runUserRequests rt Db.empty reqs).users := by
  have h := usersDistinct_run rt reqs Db.empty (by simp [Db.empty])
  exact ⟨h.imp fun hab => hab.2, h.imp fun hab => hab.1⟩

/-! ## Password length -/

theorem validatePassword_of_long (h : String) (hlen : 6 ≤ jsLength h) :
    validatePassword h = none := by
  unfold validatePassword
  have hne : h ≠ "" := by
    rintro rfl
    simp [jsLength] at hlen
  simp [hne, Nat.not_lt.mpr hlen]

/-- C4 (the code at the failing input): the `minlength: 6` validator runs on
the bcrypt hash, not on the plaintext.  With any runtime whose hash of "abc"
has at least 6 code units (a bcrypt hash has 60), registering the 3-character
password "abc" on the empty database is answered 201 and the user is stored. -/
theorem register_short_password_accepted (rt : Runtime) (now : Nat) (newId : ObjectId)
    (salt : String) (hhash : 6 ≤ jsLength (rt.bcryptHash "abc" salt))
    (hlower : rt.toLowerCase "a@b.com" = "a@b.com") :
    jsLength "abc" < 6 ∧
    (register rt now newId salt Db.empty (sampleRegisterBody "a@b.com" "abc")).1 =
      ⟨201, .registered newId "A" "B" "a@b.com" "Registration successful. Please log in."⟩ ∧
    (register rt now newId salt Db.empty (sampleRegisterBody "a@b.com" "abc")).2.users =
      [{ _id := newId, firstName := "A", lastName := "B", email := "a@b.com",
         password := rt.bcryptHash "abc" salt, phone := "", dateOfBirth := none, gender := "",
         country := "", city := "", createdAt := now, updatedAt := now }] := by
  have hA : jsTrim "A" = "A" := by decide
  have hB : jsTrim "B" = "B" := by decide
  have hE : jsTrim "" = "" := by decide
  have hM : jsTrim "a@b.com" = "a@b.com" := by decide
  have hmatch : validateEmail "a@b.com" = none := by decide
  have hphone : validatePhone "" = none := by decide
  have hgender : validateGender "" = none := by decide
  have hfirst : validateRequired "First name is required" "A" = none := by decide
  have hlast : validateRequired "Last name is required" "B" = none := by decide
  have hpw := validatePassword_of_long _ hhash
  have huser : newUser rt now newId (rt.bcryptHash "abc" salt)
      (sampleRegisterBody "a@b.com" "abc") =
      { _id := newId, firstName := "A", lastName := "B", email := "a@b.com",
        password := rt.bcryptHash "abc" salt, phone := "", dateOfBirth := none, gender := "",
        country := "", city := "", createdAt := now, updatedAt := now } := by
    simp [newUser, sampleRegisterBody, castString, JsVal.orElse, JsVal.truthy, normalizeEmail,
      hlower, hA, hB, hE, hM]
  have herrors : validateNewUser rt (sampleRegisterBody "a@b.com" "abc")
      (newUser rt now newId (rt.bcryptHash "abc" salt) (sampleRegisterBody "a@b.com" "abc"))
      = [] := by
    rw [huser]
    simp [validateNewUser, collectErrors, hmatch, hphone, hgender, hfirst, hlast, hpw,
      sampleRegisterBody, JsVal.truthy]
  have hreg : register rt now newId salt Db.empty (sampleRegisterBody "a@b.com" "abc") =
      saveUser Db.empty [] (newUser rt now newId (rt.bcryptHash "abc" salt)
        (sampleRegisterBody "a@b.com" "abc")) := by
    unfold register
    simp [sampleRegisterBody, JsVal.truthy, findOneByEmail, castString, Db.empty]
    rw [← herrors]
    rfl
  refine ⟨by decide, ?_, ?_⟩
  · rw [hreg, huser]
    simp [saveUser, userInsertConflict, Db.empty]
  · rw [hreg, huser]
    simp [saveUser, userInsertConflict, Db.empty]

theorem register_short_password_accepted_witness :
    jsLength "abc" < 6 ∧
    (register sampleRuntime 5 1 sampleSalt Db.empty (sampleRegisterBody "a@b.com" "abc")).1 =
      ⟨201, .registered 1 "A" "B" "a@b.com" "Registration successful. Please log in."⟩ ∧
    (register sampleRuntime 5 1 sampleSalt Db.empty
        (sampleRegisterBody "a@b.com" "abc")).2.users =
      [{ _id := 1, firstName := "A", lastName := "B", email := "a@b.com",
         password := sampleRuntime.bcryptHash "abc" sampleSalt, phone := "", dateOfBirth := none,
         gender := "", country := "", city := "", createdAt := 5, updatedAt := 5 }] :=
  register_short_password_accepted sampleRuntime 5 1 sampleSalt (by decide) (by decide)

/-! ## Login -/

theorem findOneByEmail_none_of_forall (rt : Runtime) (users : List User) (s : String)
    (h : ∀ u ∈ users, u.email ≠ normalizeEmail rt s) :
    findOneByEmail rt users (.str s) = none := by
  unfold findOneByEmail
  simp only [castString]
  rw [List.find?_eq_none]
  intro u hu
  simpa using h u hu

/-- Login with string credentials: for a request whose email and password are
non-empty strings, the response when no user has that email and the response
when users have that email but the password does not match their hash are
the same: status 400 with body `{ msg: "Invalid credentials." }`. -/
theorem login_does_not_reveal_account (rt : Runtime) (secret : Option String) (now : Nat)
    (dbAbsent dbPresent : Db) (e p : String) (he : e ≠ "") (hp : p ≠ "")
    (habsent : ∀ u ∈ dbAbsent.users, u.email ≠ normalizeEmail rt e)
    (hpresent : ∃ u ∈ dbPresent.users, u.email = normalizeEmail rt e)
    (hmismatch : ∀ u ∈ dbPresent.users, u.email = normalizeEmail rt e →
      rt.bcryptCompare p u.password = false) :
    login rt secret now dbAbsent ⟨.str e, .str p⟩ = ⟨400, .msg "Invalid credentials."⟩ ∧
    login rt secret now dbPresent ⟨.str e, .str p⟩ = ⟨400, .msg "Invalid credentials."⟩ := by
  constructor
  · unfold login
    simp [JsVal.truthy, he, hp, findOneByEmail_none_of_forall rt _ e habsent]
  · obtain ⟨u, hu, hue⟩ := hpresent
    obtain ⟨v, hv⟩ := findOneByEmail_of_mem rt dbPresent.users (.str e) e u rfl hu hue
    obtain ⟨hvmem, s, hs, hvs⟩ := findOneByEmail_some_spec rt _ _ v hv
    cases hs
    unfold login
    simp [JsVal.truthy, he, hp, hv, hmismatch v hvmem hvs]

theorem login_does_not_reveal_account_witness :
    login sampleRuntime (some "k") 7 Db.empty ⟨.str "A@b.com", .str "secret2"⟩ =
      ⟨400, .msg "Invalid credentials."⟩ ∧
    login sampleRuntime (some "k") 7 sampleDb ⟨.str "A@b.com", .str "secret2"⟩ =
      ⟨400, .msg "Invalid credentials."⟩ :=
  login_does_not_reveal_account sampleRuntime (some "k") 7 Db.empty sampleDb "A@b.com" "secret2"
    (by decide) (by decide) (by decide) (by decide) (by decide)

/-- C5 (the code at the failing input): a password that is a non-zero JSON
number passes the guard `!email || !password`; when no user has the email the
answer is 400 "Invalid credentials.", but when a user has it `bcrypt.compare`
throws on the number and the answer is 500 "Server error occurred during
login.", so the two responses differ and tell whether the account exists. -/
theorem login_number_password_reveals_account (rt : Runtime) (secret : Option String)
    (now : Nat) (dbAbsent dbPresent : Db) (e : String) (n : Int) (he : e ≠ "") (hn : n ≠ 0)
    (habsent : ∀ u ∈ dbAbsent.users, u.email ≠ normalizeEmail rt e)
    (hpresent : ∃ u ∈ dbPresent.users, u.email = normalizeEmail rt e) :
    login rt secret now dbAbsent ⟨.str e, .num n⟩ = ⟨400, .msg "Invalid credentials."⟩ ∧
    login rt secret now dbPresent ⟨.str e, .num n⟩ =
      ⟨500, .error "Server error occurred during login."⟩ ∧
    login rt secret now dbAbsent ⟨.str e, .num n⟩ ≠
      login rt secret now dbPresent ⟨.str e, .num n⟩ := by
  have h400 : login rt secret now dbAbsent ⟨.str e, .num n⟩ =
      ⟨400, .msg "Invalid credentials."⟩ := by
    unfold login
    simp [JsVal.truthy, he, hn, findOneByEmail_none_of_forall rt _ e habsent]
  have h500 : login rt secret now dbPresent ⟨.str e, .num n⟩ =
      ⟨500, .error "Server error occurred during login."⟩ := by
    obtain ⟨u, hu, hue⟩ := hpresent
    obtain ⟨v, hv⟩ := findOneByEmail_of_mem rt dbPresent.users (.str e) e u rfl hu hue
    unfold login
    simp [JsVal.truthy, he, hn, hv]
  refine ⟨h400, h500, ?_⟩
  rw [h400, h500]
  intro h
  injection h with hs _
  cases hs

theorem login_number_password_reveals_account_witness :
    login sampleRuntime (some "k") 7 Db.empty ⟨.str "a@b.com", .num 12345⟩ =
      ⟨400, .msg "Invalid credentials."⟩ ∧
    login sampleRuntime (some "k") 7 sampleDb ⟨.str "a@b.com", .num 12345⟩ =
      ⟨500, .error "Server error occurred during login."⟩ ∧
    login sampleRuntime (some "k") 7 Db.empty ⟨.str "a@b.com", .num 12345⟩ ≠
      login sampleRuntime (some "k") 7 sampleDb ⟨.str "a@b.com", .num 12345⟩ :=
  login_number_password_reveals_account sampleRuntime (some "k") 7 Db.empty sampleDb "a@b.com"
    12345 (by decide) (by decide) (by decide) (by decide)

/-! ## Token lifetime -/

theorem login_token (rt : Runtime) (secret : Option String) (now : Nat) (db : Db)
    (body : LoginBody) (token : String) (id : ObjectId) (fn em m : String)
    (h : login rt secret now db body = ⟨200, .loggedIn token id fn em m⟩) :
    ∃ key, secret = some key ∧ key ≠ "" ∧ token = jwtSign rt id key now := by
  unfold login at h
  split at h
  · cases h
  · split at h
    · cases h
    · split at h
      · dsimp only at h
        split at h
        · cases h
        · split at h
          · cases h
          · rename_i key
            split at h
            · cases h
            · rename_i hkey
              injection h with _ hb
              injection hb with ht hid
              exact ⟨key, rfl, by simpa using hkey, by rw [← ht, ← hid]⟩
      · cases h

theorem auth_jwtVerify (rt : Runtime) (key token : String) (t : Nat) (c : JwtClaims)
    (hne : token ≠ "") (hdec : rt.jwsDecode token key = some c) (hnbf : c.nbf = none)
    (exp : Nat) (hexp : c.exp = some exp) :
    auth (jwtVerify rt (some key) t) (some token) =
      if t / 1000 < exp then
        { reqUser := some { id := c.id }, response := none, nextCalled := true }
      else
        { reqUser := none, response := some ⟨401, .msg "Token is not valid"⟩,
          nextCalled := false } := by
  by_cases hlt : t / 1000 < exp
  · have hle : ¬ exp ≤ t / 1000 := Nat.not_le.mpr hlt
    simp [auth, jwtVerify, hne, hdec, hnbf, hexp, hlt, hle]
  · simp [auth, jwtVerify, hne, hdec, hnbf, hexp, hlt, Nat.not_lt.mp hlt]

/-- C6 (as the code behaves): a token issued by login at clock `T`
(milliseconds) carries `exp = ⌊T/1000⌋ + 3600` seconds; with the same secret
the gate accepts it exactly at the request times `t` whose clock in whole
seconds is below `exp`, that is `t + T mod 1000 < T + 1h`, and rejects it with
401 "Token is not valid" at every `t ≥ T + 1h`, the instant `T + 1h` included. -/
theorem token_accepted_before_expiry (rt : Runtime) (key : String) (T t : Nat) (db : Db)
    (body : LoginBody) (token : String) (id : ObjectId) (fn em m : String)
    (hlogin : login rt (some key) T db body = ⟨200, .loggedIn token id fn em m⟩)
    (hcodec : rt.jwsDecode
        (rt.jwsEncode { id := id, iat := T / 1000, nbf := none, exp := some (T / 1000 + 3600) }
          key) key =
      some { id := id, iat := T / 1000, nbf := none, exp := some (T / 1000 + 3600) })
    (hne : token ≠ "") :
    ((auth (jwtVerify rt (some key) t) (some token)).nextCalled = true ↔
      t + T % 1000 < T + 3600000) ∧
    (t + T % 1000 < T + 3600000 →
      auth (jwtVerify rt (some key) t) (some token) =
        { reqUser := some { id := id }, response := none, nextCalled := true }) ∧
    (T + 3600000 ≤ t →
      auth (jwtVerify rt (some key) t) (some token) =
        { reqUser := none, response := some ⟨401, .msg "Token is not valid"⟩,
          nextCalled := false }) := by
  obtain ⟨key', hkey, _, htok⟩ := login_token rt _ T db body token id fn em m hlogin
  cases hkey
  have hdec : rt.jwsDecode token key =
      some { id := id, iat := T / 1000, nbf := none, exp := some (T / 1000 + 3600) } := by
    rw [htok]; exact hcodec
  have hauth := auth_jwtVerify rt key token t _ hne hdec rfl (T / 1000 + 3600) rfl
  have harith : t / 1000 < T / 1000 + 3600 ↔ t + T % 1000 < T + 3600000 := by omega
  rw [hauth]
  refine ⟨?_, ?_, ?_⟩
  · by_cases hlt : t / 1000 < T / 1000 + 3600
    · rw [if_pos hlt]
      exact ⟨fun _ => harith.mp hlt, fun _ => rfl⟩
    · rw [if_neg hlt]
      exact ⟨fun h => (by cases h), fun h => absurd (harith.mpr h) hlt⟩
  · intro h
    rw [if_pos (harith.mpr h)]
  · intro h
    have : ¬ t / 1000 < T / 1000 + 3600 := by omega
    rw [if_neg this]

theorem token_accepted_before_expiry_witness :
    ((auth (jwtVerify sampleRuntime (some "k") 3600999)
        (some (jwtSign sampleRuntime 1 "k" 1500))).nextCalled = true ↔
      3600999 + 1500 % 1000 < 1500 + 3600000) ∧
    (3600999 + 1500 % 1000 < 1500 + 3600000 →
      auth (jwtVerify sampleRuntime (some "k") 3600999)
          (some (jwtSign sampleRuntime 1 "k" 1500)) =
        { reqUser := some { id := 1 }, response := none, nextCalled := true }) ∧
    (1500 + 3600000 ≤ 3600999 →
      auth (jwtVerify sampleRuntime (some "k") 3600999)
          (some (jwtSign sampleRuntime 1 "k" 1500)) =
        { reqUser := none, response := some ⟨401, .msg "Token is not valid"⟩,
          nextCalled := false }) :=
  token_accepted_before_expiry sampleRuntime "k" 1500 3600999 sampleDb
    ⟨.str "a@b.com", .str "secret1"⟩ (jwtSign sampleRuntime 1 "k" 1500) 1 "A" "a@b.com"
    "Login successful!" (by decide) (by decide) (by decide)

/-- C6 (counterexample): login at clock 0 issues a token; at the request time
`0 + 1h` exactly, which the claim counts as accepted, the gate answers 401
"Token is not valid" and does not call the next handler. -/
theorem token_rejected_at_one_hour :
    login sampleRuntime (some "k") 0 sampleDb ⟨.str "a@b.com", .str "secret1"⟩ =
      ⟨200, .loggedIn (jwtSign sampleRuntime 1 "k" 0) 1 "A" "a@b.com" "Login successful!"⟩ ∧
    (0 ≤ 3600000 ∧ 3600000 ≤ 0 + 3600000) ∧
    auth (jwtVerify sampleRuntime (some "k") 3600000) (some (jwtSign sampleRuntime 1 "k" 0)) =
      { reqUser := none, response := some ⟨401, .msg "Token is not valid"⟩,
        nextCalled := false } := by
  decide

/-! ## Profile update: what is written -/

theorem forall₂_updateFirst {α : Type} (R : α → α → Prop) (p : α → Bool) (f : α → α)
    (l : List α) (hrefl : ∀ x, R x x) (hf : ∀ x, R x (f x)) :
    List.Forall₂ R l (updateFirst p f l) := by
  induction l with
  | nil => exact List.Forall₂.nil
  | cons x xs ih =>
    unfold updateFirst
    by_cases hp : p x = true
    · rw [if_pos hp]
      exact List.Forall₂.cons (hf x) (List.forall₂_same.mpr fun y _ => hrefl y)
    · rw [if_neg hp]
      exact List.Forall₂.cons (hrefl x) ih

theorem ifTruthy_of_falsy (v : JsVal) (h : v.truthy = false) : ifTruthy v = none := by
  simp [ifTruthy, h]

theorem profileFrame_applyUpdate (rt : Runtime) (now : Nat) (body : ProfileBody)
    (up : UserUpdate) (hup : castUpdate rt (buildProfileFields body) = .ok up) (u : User) :
    ProfileFrame body u (applyUpdate now up u) := by
  unfold castUpdate at hup
  split at hup
  · cases hup
  · rename_i dob hdob
    injection hup with hup
    subst hup
    refine ⟨rfl, rfl, rfl, ?_, ?_, ?_, ?_, ?_, ?_, ?_, ?_⟩ <;> intro h <;>
      simp [applyUpdate, buildProfileFields, ifTruthy_of_falsy _ h]

/-- C7 (as the code behaves): a profile update changes, in every user
document, at most the updatable fields whose incoming value is truthy and the
`updatedAt` timestamp: the id, the password, the creation time and every
field among firstName, lastName, email, phone, dateOfBirth, gender, country,
city whose incoming value is absent or falsy keep their stored value, no user
document is added or removed, and the other collections are unchanged. -/
theorem updateProfile_frame (rt : Runtime) (now : Nat) (db : Db) (userId : ObjectId)
    (body : ProfileBody) :
    List.Forall₂ (ProfileFrame body) db.users (updateProfile rt now db userId body).2.users ∧
    (updateProfile rt now db userId body).2.donations = db.donations ∧
    (updateProfile rt now db userId body).2.opportunities = db.opportunities ∧
    (updateProfile rt now db userId body).2.userOpportunities = db.userOpportunities := by
  have hrefl : ∀ u : User, ProfileFrame body u u := fun u => by simp [ProfileFrame]
  rcases updateProfile_users rt now db userId body with h | ⟨up, hup, _, _, h⟩
  · rw [h]
    exact ⟨List.forall₂_same.mpr fun u _ => hrefl u, rfl, rfl, rfl⟩
  · rw [h]
    exact ⟨forall₂_updateFirst _ _ _ _ hrefl (profileFrame_applyUpdate rt now body up hup),
      rfl, rfl, rfl⟩

/-- C7 (counterexample): an update that supplies only a first name is answered
200 and changes `updatedAt`, a field outside the list of updatable fields,
from 5 to 9. -/
theorem updateProfile_changes_updatedAt :
    (updateProfile sampleRuntime 9 sampleDb 1
        { emptyProfileBody with firstName := .str "X" }).1.status = 200 ∧
    sampleDb.users.map (fun u => u.updatedAt) = [5] ∧
    (updateProfile sampleRuntime 9 sampleDb 1
        { emptyProfileBody with firstName := .str "X" }).2.users.map (fun u => u.updatedAt)
      = [9] := by
  decide

/-! ## Profile update: the email check -/

theorem append_ne_of_head (a b t : String) (c d : Char) (as ts : List Char)
    (ha : a.data = c :: as) (ht : t.data = d :: ts) (hcd : c ≠ d) : a ++ b ≠ t := by
  intro h
  have hdata := congrArg String.data h
  rw [String.data_append, ha, ht] at hdata
  exact hcd (List.cons.inj hdata).1

theorem findByIdAndUpdate_ne_emailInUse (rt : Runtime) (now : Nat) (db : Db)
    (userId : ObjectId) (f : ProfileFields) :
    (findByIdAndUpdate rt now db userId f).1 ≠ emailInUseResponse := by
  unfold findByIdAndUpdate emailInUseResponse
  cases castUpdate rt f with
  | error path =>
    intro h
    injection h with _ hb
    injection hb with hm
    exact append_ne_of_head "Invalid data format for: " path _ 'I' 'T' _ _ rfl rfl
      (by decide) hm
  | ok up =>
    dsimp only
    split
    · intro h
      injection h with _ hb
      injection hb with hm
      unfold validationMessage at hm
      exact append_ne_of_head ("Validation failed" ++ ": ") _ _ 'V' 'T' _ _ rfl rfl
        (by decide) hm
    · split
      · intro h; injection h with hs; cases hs
      · split
        · intro h; injection h with hs; cases hs
        · intro h; injection h with hs; cases hs

theorem eq_of_email_eq (users : List User) (h : EmailsUnique users) (a b : User)
    (ha : a ∈ users) (hb : b ∈ users) (he : a.email = b.email) : a = b := by
  by_contra hne
  exact List.Pairwise.forall (fun _ _ hxy => Ne.symm hxy) h ha hb hne he

theorem emailInUse_iff (rt : Runtime) (users : List User) (userId : ObjectId) (email : JsVal)
    (hunique : EmailsUnique users) :
    emailInUse rt users userId email = true ↔
      email.truthy = true ∧ ∃ u ∈ users, ∃ s, castString email = some s ∧
        u.email = normalizeEmail rt s ∧ u._id ≠ userId := by
  unfold emailInUse
  by_cases ht : email.truthy = true
  · rw [if_pos ht]
    cases hf : findOneByEmail rt users email with
    | none =>
      simp only [Bool.false_eq_true, false_iff, not_and]
      rintro _ ⟨u, hu, s, hs, hus, _⟩
      exact findOneByEmail_eq_none rt users email s hs hf u hu hus
    | some v =>
      obtain ⟨hv, s, hs, hvs⟩ := findOneByEmail_some_spec rt users email v hf
      constructor
      · intro hne
        exact ⟨ht, v, hv, s, hs, hvs, by simpa using hne⟩
      · rintro ⟨_, u, hu, s', hs', hus, hid⟩
        rw [hs] at hs'
        cases hs'
        have : v = u := eq_of_email_eq users hunique v u hv hu (hvs.trans hus.symm)
        subst this
        simpa using hid
  · rw [if_neg ht]
    simp [ht]

/-- C8: in a store whose emails are unique, `PUT /me` answers 400 "This email
is already in use by another account." exactly when the request supplies a
truthy email and a stored user with that email (after the email setters) has
an id other than the resolved identity; a user who re-submits the email
stored for their own id is not rejected by this check; and whenever the
answer is 400 the database is unchanged. -/
theorem updateProfile_email_in_use (rt : Runtime) (now : Nat) (db : Db) (userId : ObjectId)
    (body : ProfileBody) (hunique : EmailsUnique db.users) :
    ((updateProfile rt now db userId body).1 = emailInUseResponse ↔
      body.email.truthy = true ∧ ∃ u ∈ db.users, ∃ s, castString body.email = some s ∧
        u.email = normalizeEmail rt s ∧ u._id ≠ userId) ∧
    (∀ u ∈ db.users, ∀ s, u._id = userId → castString body.email = some s →
      u.email = normalizeEmail rt s →
      (updateProfile rt now db userId body).1 ≠ emailInUseResponse) ∧
    ((updateProfile rt now db userId body).1.status = 400 →
      (updateProfile rt now db userId body).2 = db) := by
  have hiff : (updateProfile rt now db userId body).1 = emailInUseResponse ↔
      emailInUse rt db.users userId body.email = true := by
    unfold updateProfile
    dsimp only
    by_cases h : emailInUse rt db.users userId body.email = true
    · rw [if_pos h]
      exact ⟨fun _ => h, fun _ => rfl⟩
    · rw [if_neg h]
      exact ⟨fun hr => absurd hr (findByIdAndUpdate_ne_emailInUse rt now db userId _),
        fun hr => absurd hr h⟩
  have hspec := emailInUse_iff rt db.users userId body.email hunique
  refine ⟨hiff.trans hspec, ?_, ?_⟩
  · intro u hu s hid hs hus hresp
    obtain ⟨_, v, hv, s', hs', hvs, hvid⟩ := (hiff.trans hspec).mp hresp
    rw [hs] at hs'
    cases hs'
    have : v = u := eq_of_email_eq db.users hunique v u hv hu (hvs.trans hus.symm)
    subst this
    exact hvid hid
  · intro hstatus
    rcases updateProfile_users rt now db userId body with h | ⟨_, _, _, h200, _⟩
    · exact h
    · rw [h200] at hstatus
      cases hstatus

theorem updateProfile_email_in_use_witness :
    EmailsUnique sampleDb2.users ∧
    (updateProfile sampleRuntime 9 sampleDb2 1
        { emptyProfileBody with email := .str "C@D.com" }).1 = emailInUseResponse ∧
    (updateProfile sampleRuntime 9 sampleDb2 1
        { emptyProfileBody with email := .str "A@B.com" }).1 ≠ emailInUseResponse :=
  ⟨by decide,
    (updateProfile_email_in_use sampleRuntime 9 sampleDb2 1
      { emptyProfileBody with email := .str "C@D.com" } (by decide)).1.mpr
      ⟨by decide, sampleUser2, by decide, "C@D.com", rfl, by decide, by decide⟩,
    (updateProfile_email_in_use sampleRuntime 9 sampleDb2 1
      { emptyProfileBody with email := .str "A@B.com" } (by decide)).2.1
      sampleUser (by decide) "A@B.com" rfl rfl (by decide)⟩

/-! ## Account deletion -/

/-- C9: when no user document has the resolved id, `DELETE /me` answers 404
and the database is unchanged; otherwise it answers 200, exactly one user
document with that id is removed (the first), the other user documents stay
as they are and in order, and the donation, signup and opportunity
collections are unchanged; with unique ids no document with that id is left. -/
theorem deleteAccount_frame (db : Db) (userId : ObjectId) :
    ((∀ u ∈ db.users, u._id ≠ userId) →
      deleteAccount db userId = (⟨404, .msg "User not found."⟩, db)) ∧
    ((∃ u ∈ db.users, u._id = userId) →
      (deleteAccount db userId).1 =
        ⟨200, .msg "Your account has been successfully deleted."⟩ ∧
      (∃ v before after, v._id = userId ∧ db.users = before ++ v :: after ∧
        (deleteAccount db userId).2.users = before ++ after) ∧
      (IdsUnique db.users → ∀ w ∈ (deleteAccount db userId).2.users, w._id ≠ userId)) ∧
    (deleteAccount db userId).2.donations = db.donations ∧
    (deleteAccount db userId).2.userOpportunities = db.userOpportunities ∧
    (deleteAccount db userId).2.opportunities = db.opportunities := by
  refine ⟨?_, ?_, ?_, ?_, ?_⟩
  · intro h
    have hf : findById db.users userId = none := by
      unfold findById
      rw [List.find?_eq_none]
      intro u hu
      simpa using h u hu
    unfold deleteAccount
    rw [hf]
  · rintro ⟨u, hu, hid⟩
    obtain ⟨v, before, after, _, hpv, hsplit, herase⟩ :=
      List.exists_of_eraseP (p := fun u => u._id == userId) hu (by simpa using hid)
    have hv : v._id = userId := by simpa using hpv
    have husers := congrArg Db.users (deleteAccount_users db userId)
    refine ⟨?_, ⟨v, before, after, hv, hsplit, ?_⟩, ?_⟩
    · unfold deleteAccount
      cases hf : findById db.users userId with
      | none =>
        have := List.find?_eq_none.mp hf u hu
        simp [hid] at this
      | some _ => rfl
    · rw [husers]; exact herase
    · intro hids w hw
      rw [husers] at hw
      dsimp only at hw
      rw [herase] at hw
      unfold IdsUnique at hids
      rw [hsplit, List.pairwise_append, List.pairwise_cons] at hids
      obtain ⟨_, ⟨hva, _⟩, hcross⟩ := hids
      rcases List.mem_append.mp hw with hb | ha
      · rw [← hv]
        exact hcross w hb v (List.mem_cons_self _ _)
      · rw [← hv]
        exact fun h => hva w ha h.symm
  · rw [deleteAccount_users]
  · rw [deleteAccount_users]
  · rw [deleteAccount_users]

/-! ## Signup uniqueness -/

theorem createSignup_store (rt : Runtime) (now : Nat) (newId : ObjectId)
    (opportunities : List Opportunity) (seen current : List UserOpportunity)
    (userId : ObjectId) (opportunityId : JsVal) :
    (createSignup rt now newId opportunities seen current userId opportunityId).2 = current ∨
    ∃ doc : UserOpportunity, signupInsertConflict current doc = false ∧
      (∃ o ∈ opportunities, o._id = doc.opportunity) ∧
      (createSignup rt now newId opportunities seen current userId opportunityId).2 =
        current ++ [doc] := by
  unfold createSignup
  split
  · exact Or.inl rfl
  · split
    · exact Or.inl rfl
    · rename_i oid _
      split
      · exact Or.inl rfl
      · rename_i o hfind
        split
        · exact Or.inl rfl
        · dsimp only
          split
          · exact Or.inl rfl
          · rename_i hconf
            refine Or.inr ⟨_, by simpa using hconf, ⟨o, List.mem_of_find?_eq_some hfind, ?_⟩, rfl⟩
            simpa using List.find?_some hfind

theorem signupsOk_step (rt : Runtime) (now : Nat) (newId : ObjectId)
    (opportunities : List Opportunity) (seen current : List UserOpportunity)
    (userId : ObjectId) (opportunityId : JsVal) (h : SignupsOk opportunities current) :
    SignupsOk opportunities
      (createSignup rt now newId opportunities seen current userId opportunityId).2 := by
  rcases createSignup_store rt now newId opportunities seen current userId opportunityId with
    hr | ⟨doc, hconf, hopp, hr⟩
  · rw [hr]; exact h
  · rw [hr]
    constructor
    · unfold SignupsUnique
      rw [List.pairwise_append]
      refine ⟨h.1, List.pairwise_singleton _ _, ?_⟩
      intro a ha b hb
      rw [List.mem_singleton] at hb
      subst hb
      unfold signupInsertConflict at hconf
      have := (List.any_eq_false.mp hconf) a ha
      simp only [Bool.or_eq_true, Bool.and_eq_true, beq_iff_eq, not_or] at this
      exact this.2
    · intro s hs
      rcases List.mem_append.mp hs with hs | hs
      · exact h.2 s hs
      · rw [List.mem_singleton] at hs
        subst hs
        exact hopp

theorem signupsOk_run (rt : Runtime) (opportunities : List Opportunity)
    (reqs : List SignupRequest) (signups : List UserOpportunity)
    (h : SignupsOk opportunities signups) :
    SignupsOk opportunities (runSignups rt opportunities signups reqs) := by
  induction reqs generalizing signups with
  | nil => exact h
  | cons r rs ih =>
    simp only [runSignups, List.foldl_cons]
    exact ih _ (signupsOk_step rt r.now r.newId opportunities r.seen signups r.userId
      r.opportunityId h)

theorem createSignup_repeated (rt : Runtime) (now : Nat) (newId : ObjectId)
    (opportunities : List Opportunity) (seen current : List UserOpportunity)
    (userId : ObjectId) (opportunityId : JsVal) (oid : ObjectId)
    (hcast : rt.castObjectId opportunityId = some oid)
    (hopp : ∃ o ∈ opportunities, o._id = oid)
    (hrec : ∃ s ∈ current, s.user = userId ∧ s.opportunity = oid) :
    (createSignup rt now newId opportunities seen current userId opportunityId).1.status = 400 ∧
    (createSignup rt now newId opportunities seen current userId opportunityId).2 = current ∧
    (opportunityId.truthy = true →
      (createSignup rt now newId opportunities seen current userId opportunityId).1 ∈
        alreadySignedUpResponses) := by
  obtain ⟨o, ho, hoid⟩ := hopp
  obtain ⟨s, hs, hsu, hso⟩ := hrec
  have hfind : ∃ o', opportunities.find? (fun o => o._id == oid) = some o' := by
    cases hf : opportunities.find? (fun o => o._id == oid) with
    | some o' => exact ⟨o', rfl⟩
    | none =>
      have := List.find?_eq_none.mp hf o ho
      simp [hoid] at this
  obtain ⟨o', hfind⟩ := hfind
  have hconf : ∀ doc : UserOpportunity, doc.user = userId → doc.opportunity = oid →
      signupInsertConflict current doc = true := by
    intro doc hdu hdo
    unfold signupInsertConflict
    rw [List.any_eq_true]
    exact ⟨s, hs, by simp [hsu, hso, hdu, hdo]⟩
  unfold createSignup
  by_cases ht : opportunityId.truthy = true
  · simp only [ht, Bool.not_true, Bool.false_eq_true, if_false, hcast, hfind]
    cases seen.find? (fun s => s.user == userId && s.opportunity == oid) with
    | some _ => simp [alreadySignedUpResponses]
    | none => simp [alreadySignedUpResponses, hconf]
  · simp [ht]

/-- C10: in every state reached from the empty signup collection by a sequence
of create requests (whatever signups each pre-check read), no two signup
documents have the same (user, opportunity) pair; and in such a state a
create request for a pair that has a document is answered 400 and leaves the
collection unchanged, whether the pre-check saw the document or, having read
a stale collection, did not and `save()` raised the duplicate-key error. -/
theorem signup_uniqueness (rt : Runtime) (opportunities : List Opportunity)
    (reqs : List SignupRequest) :
    SignupsUnique (runSignups rt opportunities [] reqs) ∧
    ∀ (now : Nat) (newId userId : ObjectId) (opportunityId : JsVal) (oid : ObjectId)
      (seen : List UserOpportunity),
      rt.castObjectId opportunityId = some oid →
      (∃ s ∈ runSignups rt opportunities [] reqs, s.user = userId ∧ s.opportunity = oid) →
      (createSignup rt now newId opportunities seen (runSignups rt opportunities [] reqs)
          userId opportunityId).1.status = 400 ∧
      (createSignup rt now newId opportunities seen (runSignups rt opportunities [] reqs)
          userId opportunityId).2 = runSignups rt opportunities [] reqs ∧
      (opportunityId.truthy = true →
        (createSignup rt now newId opportunities seen (runSignups rt opportunities [] reqs)
            userId opportunityId).1 ∈ alreadySignedUpResponses) := by
  have hok : SignupsOk opportunities (runSignups rt opportunities [] reqs) :=
    signupsOk_run rt opportunities reqs [] ⟨List.Pairwise.nil, fun s hs => by cases hs⟩
  refine ⟨hok.1, ?_⟩
  intro now newId userId opportunityId oid seen hcast hrec
  obtain ⟨s, hs, hsu, hso⟩ := hrec
  have hopp : ∃ o ∈ opportunities, o._id = oid := by
    obtain ⟨o, ho, hoid⟩ := hok.2 s hs
    exact ⟨o, ho, hoid.trans hso⟩
  exact createSignup_repeated rt now newId opportunities seen _ userId opportunityId oid hcast
    hopp ⟨s, hs, hsu, hso⟩

theorem signup_uniqueness_witness :
    runSignups sampleRuntime [sampleOpportunity] [] sampleSignupRequests =
      [{ _id := 100, user := 1, opportunity := 10, signedUpAt := 1 }] ∧
    (createSignup sampleRuntime 2 101 [sampleOpportunity] []
        (runSignups sampleRuntime [sampleOpportunity] [] sampleSignupRequests)
        1 (.str "10")).1.status = 400 ∧
    (createSignup sampleRuntime 2 101 [sampleOpportunity] []
        (runSignups sampleRuntime [sampleOpportunity] [] sampleSignupRequests)
        1 (.str "10")).2 = runSignups sampleRuntime [sampleOpportunity] [] sampleSignupRequests ∧
    (JsVal.truthy (.str "10") = true →
      (createSignup sampleRuntime 2 101 [sampleOpportunity] []
          (runSignups sampleRuntime [sampleOpportunity] [] sampleSignupRequests)
          1 (.str "10")).1 ∈ alreadySignedUpResponses) :=
  ⟨by decide,
    (signup_uniqueness sampleRuntime [sampleOpportunity] sampleSignupRequests).2 2 101 1
      (.str "10") 10 [] (by decide) (by decide)⟩

/-! ## Signup for an unknown opportunity -/

/-- C11: a signup-create request whose `opportunityId` is present and casts to
an id that no stored opportunity has is answered 404 "Volunteer opportunity
not found", and neither the signup collection nor any other collection
changes (whatever the pre-check would have read). -/
theorem createSignup_unknown_opportunity (rt : Runtime) (now : Nat) (newId : ObjectId)
    (db : Db) (seen : List UserOpportunity) (userId : ObjectId) (opportunityId : JsVal)
    (oid : ObjectId) (hpresent : opportunityId.truthy = true)
    (hcast : rt.castObjectId opportunityId = some oid)
    (hunknown : ∀ o ∈ db.opportunities, o._id ≠ oid) :
    createSignup rt now newId db.opportunities seen db.userOpportunities userId opportunityId =
      (⟨404, .msg "Volunteer opportunity not found"⟩, db.userOpportunities) ∧
    signUp rt now newId db userId opportunityId =
      (⟨404, .msg "Volunteer opportunity not found"⟩, db) := by
  have hfind : db.opportunities.find? (fun o => o._id == oid) = none := by
    rw [List.find?_eq_none]
    intro o ho
    simpa using hunknown o ho
  have hcreate : ∀ seen', createSignup rt now newId db.opportunities seen' db.userOpportunities
      userId opportunityId =
      (⟨404, .msg "Volunteer opportunity not found"⟩, db.userOpportunities) := by
    intro seen'
    unfold createSignup
    simp [hpresent, hcast, hfind]
  refine ⟨hcreate seen, ?_⟩
  unfold signUp
  simp only [hcreate]

theorem createSignup_unknown_opportunity_witness :
    createSignup sampleRuntime 2 101 sampleDb3.opportunities [] sampleDb3.userOpportunities 1
        (.str "11") =
      (⟨404, .msg "Volunteer opportunity not found"⟩, sampleDb3.userOpportunities) ∧
    signUp sampleRuntime 2 101 sampleDb3 1 (.str "11") =
      (⟨404, .msg "Volunteer opportunity not found"⟩, sampleDb3) :=
  createSignup_unknown_opportunity sampleRuntime 2 101 sampleDb3 [] 1 (.str "11") 11
    (by decide) (by decide) (by decide)

/-! ## Malformed donation identifiers -/

/-- C13: for an identifier that does not cast to an `ObjectId`, the donation
read-by-id route, the update route (with a body that passes the validation
chains) and the delete route each answer 404 "Donation not found", and the
update and delete routes leave the database unchanged. -/
theorem malformed_donation_id (rt : Runtime) (db : Db) (id : String) (body : DonationBody)
    (hmalformed : rt.castObjectId (.str id) = none) :
    getDonation rt db id = ⟨404, .msg "Donation not found"⟩ ∧
    (checkUpdateDonation body = [] →
      updateDonation rt db id body = (⟨404, .msg "Donation not found"⟩, db)) ∧
    deleteDonation rt db id = (⟨404, .msg "Donation not found"⟩, db) := by
  refine ⟨?_, ?_, ?_⟩
  · unfold getDonation
    rw [hmalformed]
    rfl
  · intro hvalid
    unfold updateDonation
    simp only [hvalid, List.isEmpty_nil, Bool.not_true, Bool.false_eq_true, if_false,
      hmalformed]
    rfl
  · unfold deleteDonation
    rw [hmalformed]
    rfl

theorem malformed_donation_id_witness :
    getDonation sampleRuntime sampleDb3 "not-an-id" = ⟨404, .msg "Donation not found"⟩ ∧
    (checkUpdateDonation (sampleDonationBody (.num 7) .undefined) = [] →
      updateDonation sampleRuntime sampleDb3 "not-an-id"
          (sampleDonationBody (.num 7) .undefined) =
        (⟨404, .msg "Donation not found"⟩, sampleDb3)) ∧
    deleteDonation sampleRuntime sampleDb3 "not-an-id" =
      (⟨404, .msg "Donation not found"⟩, sampleDb3) :=
  malformed_donation_id sampleRuntime sampleDb3 "not-an-id"
    (sampleDonationBody (.num 7) .undefined) (by decide)

/-! ## The derived full name -/

/-- C15: the derived `fullName` is the given name, one space and the family
name when both are non-empty, the given name alone when only it is non-empty,
the family name alone when only it is non-empty, and `null` when neither is
(each name may be unset, empty or non-empty). -/
theorem fullName_spec (firstName lastName : Option String) :
    (∀ f l, firstName = some f → lastName = some l → f ≠ "" → l ≠ "" →
      fullName firstName lastName = some (f ++ " " ++ l)) ∧
    (∀ f, firstName = some f → f ≠ "" → (lastName = none ∨ lastName = some "") →
      fullName firstName lastName = some f) ∧
    (∀ l, lastName = some l → l ≠ "" → (firstName = none ∨ firstName = some "") →
      fullName firstName lastName = some l) ∧
    ((firstName = none ∨ firstName = some "") → (lastName = none ∨ lastName = some "") →
      fullName firstName lastName = none) := by
  refine ⟨?_, ?_, ?_, ?_⟩
  · rintro f l rfl rfl hf hl
    simp [fullName, truthyString, hf, hl]
  · rintro f rfl hf (rfl | rfl) <;> simp [fullName, truthyString, hf]
  · rintro l rfl hl (rfl | rfl) <;> simp [fullName, truthyString, hl]
  · rintro (rfl | rfl) (rfl | rfl) <;> simp [fullName, truthyString]

/-! ## Donation amounts -/

theorem createDonation_amounts (rt : Runtime) (now : Nat) (newId : ObjectId) (db : Db)
    (userId : ObjectId) (body : DonationBody) (h : AmountsAtLeastOne db.donations) :
    AmountsAtLeastOne (createDonation rt now newId db userId body).2.donations := by
  unfold createDonation
  dsimp only
  generalize (if body.status == .undefined then some "completed" else castString body.status)
    = status
  by_cases herr : (!(checkCreateDonation body).isEmpty) = true
  · rw [if_pos herr]; exact h
  · rw [if_neg herr]
    cases castNumber rt body.amount with
    | error e => exact h
    | ok o =>
      cases o with
      | none => exact h
      | some amount =>
        dsimp only
        by_cases hvalid : (!donationValid amount status) = true
        · rw [if_pos hvalid]; exact h
        · rw [if_neg hvalid]
          by_cases hdup : (db.donations.any fun d => d._id == newId) = true
          · rw [if_pos hdup]; exact h
          · rw [if_neg hdup]
            intro d hd
            rcases List.mem_append.mp hd with hd | hd
            · exact h d hd
            · rw [List.mem_singleton] at hd
              subst hd
              simp [donationValid] at hvalid
              exact hvalid.1

theorem deleteDonation_amounts (rt : Runtime) (db : Db) (id : String)
    (h : AmountsAtLeastOne db.donations) :
    AmountsAtLeastOne (deleteDonation rt db id).2.donations := by
  unfold deleteDonation
  split
  · exact h
  · split
    · exact h
    · intro d hd
      exact h d (List.mem_of_mem_eraseP hd)

/-- C12 (the code at the failing input): creating a donation of 5 and then
updating its amount to -5 is answered 200 both times, and the stored amount
is then -5: `findByIdAndUpdate` is called without `runValidators`, so the
schema's `min: 1`, which `save()` enforces on creation, is not applied to the
update. -/
theorem donation_update_stores_amount_below_one :
    (createDonation sampleRuntime 1 20 Db.empty 1
        (sampleDonationBody (.num 5) (.str "USD"))).1.status = 200 ∧
    (updateDonation sampleRuntime
        (createDonation sampleRuntime 1 20 Db.empty 1
          (sampleDonationBody (.num 5) (.str "USD"))).2
        "20" (sampleDonationBody (.num (-5)) .undefined)).1.status = 200 ∧
    (runDonationRequests sampleRuntime Db.empty sampleDonationRequests).donations.map
        (fun d => d.amount) = [-5] ∧
    ¬ AmountsAtLeastOne
        (runDonationRequests sampleRuntime Db.empty sampleDonationRequests).donations := by
  decide

/-! ## Register, then login -/

theorem castString_of_truthy (v : JsVal) (h : v.truthy = true) :
    ∃ s, castString v = some s := by
  cases v with
  | undefined => simp [JsVal.truthy] at h
  | null => simp [JsVal.truthy] at h
  | bool b => exact ⟨_, rfl⟩
  | num n => exact ⟨_, rfl⟩
  | str s => exact ⟨_, rfl⟩

theorem register_created (rt : Runtime) (now : Nat) (newId : ObjectId) (salt : String)
    (db : Db) (body : RegisterBody)
    (h : (register rt now newId salt db body).1.status = 201) :
    ∃ p, body.password = .str p ∧ body.email.truthy = true ∧
      findOneByEmail rt db.users body.email = none ∧
      register rt now newId salt db body =
        (⟨201, .registered newId (newUser rt now newId (rt.bcryptHash p salt) body).firstName
            (newUser rt now newId (rt.bcryptHash p salt) body).lastName
            (newUser rt now newId (rt.bcryptHash p salt) body).email
            "Registration successful. Please log in."⟩,
          { db with users := db.users ++ [newUser rt now newId (rt.bcryptHash p salt) body] }) := by
  unfold register at h ⊢
  split at h
  · cases h
  · rename_i hreq
    rw [if_neg hreq]
    have hmail : body.email.truthy = true := by
      simp only [Bool.or_eq_true, Bool.not_eq_true', not_or, Bool.not_eq_false] at hreq
      exact hreq.1.2
    split at h
    · cases h
    · rename_i hfind
      rw [hfind]
      split at h
      · rename_i p hp
        refine ⟨p, hp, hmail, rfl, ?_⟩
        try rw [hp]
        dsimp only at h ⊢
        unfold saveUser at h ⊢
        split at h
        · cases h
        · rename_i herr
          rw [if_neg herr]
          split at h
          · cases h
          · rename_i hconf
            rw [if_neg hconf]
            rfl
      · cases h

/-- C16: when a registration is answered 201, a login that follows it with the
same email and password values, a configured signing secret and a hash
comparison that accepts the password against its own hash is answered 200
with a token signed for the id of the user just created (in whatever letter
case or surrounding white space the email was sent). -/
theorem register_then_login (rt : Runtime) (now later : Nat) (newId : ObjectId)
    (salt key : String) (db : Db) (body : RegisterBody)
    (hregistered : (register rt now newId salt db body).1.status = 201)
    (hcompare : ∀ p, body.password = .str p →
      rt.bcryptCompare p (rt.bcryptHash p salt) = true)
    (hkey : key ≠ "") :
    ∃ firstName lastName email message,
      (register rt now newId salt db body).1 =
        ⟨201, .registered newId firstName lastName email message⟩ ∧
      login rt (some key) later (register rt now newId salt db body).2
          ⟨body.email, body.password⟩ =
        ⟨200, .loggedIn (jwtSign rt newId key later) newId firstName email
          "Login successful!"⟩ := by
  obtain ⟨p, hp, hmail, hnone, hreg⟩ := register_created rt now newId salt db body hregistered
  obtain ⟨s, hs⟩ := castString_of_truthy body.email hmail
  refine ⟨_, _, _, _, by rw [hreg], ?_⟩
  rw [hreg]
  have hfind : findOneByEmail rt (db.users ++ [newUser rt now newId (rt.bcryptHash p salt) body])
      body.email = some (newUser rt now newId (rt.bcryptHash p salt) body) := by
    have hnone' := hnone
    unfold findOneByEmail at hnone' ⊢
    simp only [hs] at hnone' ⊢
    rw [List.find?_append, hnone']
    simp [newUser, hs]
  have hpwt : body.password.truthy = true := by
    unfold register at hregistered
    split at hregistered
    · cases hregistered
    · rename_i hreq
      simp only [Bool.or_eq_true, Bool.not_eq_true', not_or, Bool.not_eq_false] at hreq
      exact hreq.2
  unfold login
  simp only [hmail, hpwt, hfind, Bool.not_true, Bool.or_self, Bool.false_eq_true, if_false]
  rw [hp]
  simp [hcompare p hp, hkey, newUser]

theorem register_then_login_witness :
    ∃ firstName lastName email message,
      (register sampleRuntime 5 1 sampleSalt Db.empty
          (sampleRegisterBody " A@B.com " "secret1")).1 =
        ⟨201, .registered 1 firstName lastName email message⟩ ∧
      login sampleRuntime (some "k") 9
          (register sampleRuntime 5 1 sampleSalt Db.empty
            (sampleRegisterBody " A@B.com " "secret1")).2
          ⟨.str " A@B.com ", .str "secret1"⟩ =
        ⟨200, .loggedIn (jwtSign sampleRuntime 1 "k" 9) 1 firstName email
          "Login successful!"⟩ :=
  register_then_login sampleRuntime 5 9 1 sampleSalt "k" Db.empty
    (sampleRegisterBody " A@B.com " "secret1") (by decide)
    (fun p hp => by
      have : p = "secret1" := by
        have h := hp
        simp only [sampleRegisterBody] at h
        exact (JsVal.str.inj h).symm
      subst this
      decide)
    (by decide)

/-! ## Error responses -/

theorem register_error_shape (rt : Runtime) (now : Nat) (newId : ObjectId) (salt : String)
    (db : Db) (body : RegisterBody)
    (_h : (register rt now newId salt db body).1.isError = true) :
    (register rt now newId salt db body).1.body.isMessage = true ∨
    ((register rt now newId salt db body).1.status = 400 ∧
      (register rt now newId salt db body).1.body.hasErrorDetails = true) := by
  revert _h
  unfold register
  split
  · intro _; exact Or.inl rfl
  · split
    · intro _; exact Or.inl rfl
    · split
      · dsimp only
        unfold saveUser
        split
        · intro _; exact Or.inr ⟨rfl, rfl⟩
        · split
          · intro _; exact Or.inl rfl
          · intro h; simp [Response.isError] at h
      · intro _; exact Or.inl rfl

theorem login_error_shape (rt : Runtime) (secret : Option String) (now : Nat) (db : Db)
    (body : LoginBody) (_h : (login rt secret now db body).isError = true) :
    (login rt secret now db body).body.isMessage = true := by
  revert _h
  unfold login
  split
  · intro _; rfl
  · split
    · intro _; rfl
    · split
      · dsimp only
        split
        · intro _; rfl
        · split
          · intro _; rfl
          · split
            · intro _; rfl
            · intro h; simp [Response.isError] at h
      · intro _; rfl

theorem updateProfile_error_shape (rt : Runtime) (now : Nat) (db : Db) (userId : ObjectId)
    (body : ProfileBody) (_h : (updateProfile rt now db userId body).1.isError = true) :
    (updateProfile rt now db userId body).1.body.isMessage = true := by
  revert _h
  unfold updateProfile
  dsimp only
  split
  · intro _; rfl
  · unfold findByIdAndUpdate
    cases castUpdate rt (buildProfileFields body) with
    | error path => intro _; rfl
    | ok up =>
      dsimp only
      by_cases herr : (!(validateUpdate up).isEmpty) = true
      · rw [if_pos herr]; intro _; rfl
      · rw [if_neg herr]
        cases findById db.users userId with
        | none => intro _; rfl
        | some found =>
          dsimp only
          by_cases hconf : userUpdateConflict db.users userId up.email = true
          · rw [if_pos hconf]; intro _; rfl
          · rw [if_neg hconf]; intro h; simp [Response.isError] at h

theorem createSignup_error_shape (rt : Runtime) (now : Nat) (newId : ObjectId)
    (opportunities : List Opportunity) (seen current : List UserOpportunity)
    (userId : ObjectId) (opportunityId : JsVal)
    (_h : (createSignup rt now newId opportunities seen current userId opportunityId).1.isError
      = true) :
    (createSignup rt now newId opportunities seen current userId
      opportunityId).1.body.isMessage = true := by
  revert _h
  unfold createSignup
  split
  · intro _; rfl
  · split
    · intro _; rfl
    · split
      · intro _; rfl
      · split
        · intro _; rfl
        · dsimp only
          split
          · intro _; rfl
          · intro h; simp [Response.isError] at h

theorem checkField_all_msg (param msg : String) (value : JsVal) (passes : Bool)
    (hmsg : (msg != "") = true) :
    (checkField param msg value passes).all (fun e => e.msg != "") = true := by
  unfold checkField
  cases passes <;> simp [hmsg]

theorem checkOptional_all_msg (param msg : String) (value : JsVal) (passes : Bool)
    (hmsg : (msg != "") = true) :
    (checkOptional param msg value passes).all (fun e => e.msg != "") = true := by
  unfold checkOptional
  split
  · rfl
  · exact checkField_all_msg param msg value passes hmsg

theorem createDonation_error_shape (rt : Runtime) (now : Nat) (newId : ObjectId) (db : Db)
    (userId : ObjectId) (body : DonationBody)
    (_h : (createDonation rt now newId db userId body).1.isError = true) :
    ((createDonation rt now newId db userId body).1.status = 400 ∧
      (createDonation rt now newId db userId body).1.body.isValidationErrors = true) ∨
    (createDonation rt now newId db userId body).1 = ⟨500, .text "Server Error"⟩ := by
  revert _h
  unfold createDonation
  dsimp only
  generalize (if body.status == .undefined then some "completed" else castString body.status)
    = status
  by_cases herr : (!(checkCreateDonation body).isEmpty) = true
  · rw [if_pos herr]
    intro _
    refine Or.inl ⟨rfl, ?_⟩
    simp only [Body.isValidationErrors, checkCreateDonation, List.all_append]
    rw [checkField_all_msg "amount" _ _ _ (by decide),
      checkField_all_msg "currency" _ _ _ (by decide)]
    rfl
  · rw [if_neg herr]
    cases castNumber rt body.amount with
    | error e => intro _; exact Or.inr rfl
    | ok o =>
      cases o with
      | none => intro _; exact Or.inr rfl
      | some amount =>
        dsimp only
        by_cases hvalid : (!donationValid amount status) = true
        · rw [if_pos hvalid]; intro _; exact Or.inr rfl
        · rw [if_neg hvalid]
          by_cases hdup : (db.donations.any fun d => d._id == newId) = true
          · rw [if_pos hdup]; intro _; exact Or.inr rfl
          · rw [if_neg hdup]; intro h; simp [Response.isError] at h

theorem updateDonation_error_shape (rt : Runtime) (db : Db) (id : String)
    (body : DonationBody) (_h : (updateDonation rt db id body).1.isError = true) :
    ((updateDonation rt db id body).1.status = 400 ∧
      (updateDonation rt db id body).1.body.isValidationErrors = true) ∨
    (updateDonation rt db id body).1 = ⟨404, .msg "Donation not found"⟩ ∨
    (updateDonation rt db id body).1 = ⟨500, .text "Server Error"⟩ := by
  revert _h
  unfold updateDonation
  dsimp only
  by_cases herr : (!(checkUpdateDonation body).isEmpty) = true
  · rw [if_pos herr]
    intro _
    refine Or.inl ⟨rfl, ?_⟩
    simp only [Body.isValidationErrors, checkUpdateDonation, List.all_append]
    rw [checkOptional_all_msg "amount" _ _ _ (by decide),
      checkOptional_all_msg "currency" _ _ _ (by decide),
      checkOptional_all_msg "status" _ _ _ (by decide)]
    rfl
  · rw [if_neg herr]
    cases rt.castObjectId (.str id) with
    | none => intro _; exact Or.inr (Or.inl rfl)
    | some oid =>
      dsimp only
      cases findDonation db.donations oid with
      | none => intro _; exact Or.inr (Or.inl rfl)
      | some found =>
        dsimp only
        cases (if body.amount.truthy then castNumber rt body.amount else .ok none) with
        | error e => intro _; exact Or.inr (Or.inr rfl)
        | ok amount => intro h; simp [Response.isError] at h

/-- C14 (as the code behaves): every error response of the gate and of the
login, profile, signup, donation read and donation delete handlers is a JSON
object with only a `msg` or an `error` field; a registration error is such an
object or the 400 of a validation failure, which carries `error` and the
`details` of the schema errors; an error of the donation create and update
handlers is the 400 `{ errors: [...] }` of express-validator (each entry with
a `msg`), the 404 message object, or the plain text `Server Error` with status
500; the list handlers send no error of their own; and the last branch of
every `catch` block sends status 500 with a message object or the text
`Server Error`. -/
theorem error_response_shapes (rt : Runtime) :
    (∀ verify header r, (auth verify header).response = some r →
      r.status = 401 ∧ r.body.isMessage = true) ∧
    (∀ now newId salt db body, (register rt now newId salt db body).1.isError = true →
      (register rt now newId salt db body).1.body.isMessage = true ∨
      ((register rt now newId salt db body).1.status = 400 ∧
        (register rt now newId salt db body).1.body.hasErrorDetails = true)) ∧
    (∀ secret now db body, (login rt secret now db body).isError = true →
      (login rt secret now db body).body.isMessage = true) ∧
    (∀ db userId, (getProfile db userId).isError = true →
      (getProfile db userId).body.isMessage = true) ∧
    (∀ now db userId body, (updateProfile rt now db userId body).1.isError = true →
      (updateProfile rt now db userId body).1.body.isMessage = true) ∧
    (∀ db userId, (deleteAccount db userId).1.isError = true →
      (deleteAccount db userId).1.body.isMessage = true) ∧
    (∀ now newId opportunities seen current userId opportunityId,
      (createSignup rt now newId opportunities seen current userId opportunityId).1.isError
        = true →
      (createSignup rt now newId opportunities seen current userId
        opportunityId).1.body.isMessage = true) ∧
    (∀ db id, (getDonation rt db id).isError = true →
      (getDonation rt db id).body.isMessage = true) ∧
    (∀ now newId db userId body,
      (createDonation rt now newId db userId body).1.isError = true →
      ((createDonation rt now newId db userId body).1.status = 400 ∧
        (createDonation rt now newId db userId body).1.body.isValidationErrors = true) ∨
      (createDonation rt now newId db userId body).1 = ⟨500, .text "Server Error"⟩) ∧
    (∀ db id body, (updateDonation rt db id body).1.isError = true →
      ((updateDonation rt db id body).1.status = 400 ∧
        (updateDonation rt db id body).1.body.isValidationErrors = true) ∨
      (updateDonation rt db id body).1 = ⟨404, .msg "Donation not found"⟩ ∨
      (updateDonation rt db id body).1 = ⟨500, .text "Server Error"⟩) ∧
    (∀ db id, (deleteDonation rt db id).1.isError = true →
      (deleteDonation rt db id).1.body.isMessage = true) ∧
    (∀ db userId, (listDonations db).isError = false ∧ (listOpportunities db).isError = false ∧
      (listMySignups db userId).isError = false) ∧
    (∀ route : Route, route.serverError.status = 500 ∧
      (route.serverError.body.isMessage = true ∨
        route.serverError = ⟨500, .text "Server Error"⟩)) := by
  refine ⟨?_, register_error_shape rt, login_error_shape rt, ?_, updateProfile_error_shape rt,
    ?_, createSignup_error_shape rt, ?_, createDonation_error_shape rt,
    updateDonation_error_shape rt, ?_, ?_, ?_⟩
  · intro verify header r h
    unfold auth at h
    dsimp only at h
    split at h
    · cases h; exact ⟨rfl, rfl⟩
    · split at h
      · cases h
      · cases h; exact ⟨rfl, rfl⟩
  · intro db userId
    unfold getProfile
    split
    · intro _; rfl
    · intro h; simp [Response.isError] at h
  · intro db userId
    unfold deleteAccount
    split
    · intro _; rfl
    · intro h; simp [Response.isError] at h
  · intro db id
    unfold getDonation
    split
    · intro _; rfl
    · split
      · intro _; rfl
      · intro h; simp [Response.isError] at h
  · intro db id
    unfold deleteDonation
    split
    · intro _; rfl
    · split
      · intro _; rfl
      · intro h; simp [Response.isError] at h
  · intro db userId
    exact ⟨rfl, rfl, rfl⟩
  · intro route
    cases route <;> exact ⟨rfl, by first | exact Or.inl rfl | exact Or.inr rfl⟩

/-- C14 (counterexample): three error responses that the claim excludes.  A
donation with a non-numeric amount is answered 400 with `{ errors: [...] }`,
which has neither `msg` nor `error`; a donation of 0 is answered 500 with the
plain text `Server Error`, which is no JSON object; a registration with an
invalid email is answered 400 with the `details` of the schema errors. -/
theorem error_responses_outside_claim :
    ((createDonation sampleRuntime 1 20 Db.empty 1
        (sampleDonationBody (.str "abc") (.str "USD"))).1.status = 400 ∧
      (createDonation sampleRuntime 1 20 Db.empty 1
        (sampleDonationBody (.str "abc") (.str "USD"))).1.body.hasMsgOrError = false) ∧
    ((createDonation sampleRuntime 1 20 Db.empty 1
        (sampleDonationBody (.num 0) (.str "USD"))).1.status = 500 ∧
      (createDonation sampleRuntime 1 20 Db.empty 1
        (sampleDonationBody (.num 0) (.str "USD"))).1.body.isJsonObject = false) ∧
    ((register sampleRuntime 5 1 sampleSalt Db.empty
        (sampleRegisterBody "not-an-email" "secret1")).1.status = 400 ∧
      (register sampleRuntime 5 1 sampleSalt Db.empty
        (sampleRegisterBody "not-an-email" "secret1")).1.body.hasErrorDetails = true) := by
  decide

end WavesOfChange
